import Mathlib

/-!
# Session handling of the interview application front end

A shallow embedding of `frontend/src/services/authService.js`,
`frontend/src/page/AuthCallback.jsx`, `frontend/src/services/jobService.js` and
`frontend/src/services/resumeService.js`.

* the browser state the code touches (`localStorage`, `window.location.href`, the React state of
  the callback page) is an explicit `World`;
* a JavaScript statement sequence is a function `World → Except JSError α × World`, so that an
  exception keeps the writes made before it was thrown;
* the built-ins the code calls (`JSON.parse`, `JSON.stringify`, `decodeURIComponent`, ...) are the
  fields of a `Platform`; `refPlatform` is an executable reference implementation of them.
-/

namespace AuthApp

/-! ## JavaScript values -/

/-- A JavaScript number, a double: a finite value `± mantissa × 2 ^ exponent`, written with
an odd mantissa (or, for the two zeros, with mantissa and exponent 0), an infinity, or NaN. -/
inductive JSNumber where
  | finite (negative : Bool) (mantissa : Nat) (exponent : Int)
  | infinite (negative : Bool)
  | nan
  deriving DecidableEq, Repr

/-- The JavaScript values the code handles: what `JSON.parse` can return, and `undefined`. -/
inductive JSValue where
  | undefined
  | null
  | bool (b : Bool)
  | num (x : JSNumber)
  | str (s : String)
  | arr (items : List JSValue)
  | obj (fields : List (String × JSValue))

namespace JSValue

mutual
/-- Decision procedure for equality of values. -/
def decEq : (a b : JSValue) → Decidable (a = b)
  | undefined, undefined => isTrue rfl
  | null, null => isTrue rfl
  | bool a, bool b =>
    if h : a = b then isTrue (by rw [h]) else isFalse (by intro e; cases e; exact h rfl)
  | num a, num b =>
    if h : a = b then isTrue (by rw [h]) else isFalse (by intro e; cases e; exact h rfl)
  | str a, str b =>
    if h : a = b then isTrue (by rw [h]) else isFalse (by intro e; cases e; exact h rfl)
  | arr a, arr b =>
    match decEqItems a b with
    | isTrue h => isTrue (by rw [h])
    | isFalse h => isFalse (by intro e; cases e; exact h rfl)
  | obj a, obj b =>
    match decEqFields a b with
    | isTrue h => isTrue (by rw [h])
    | isFalse h => isFalse (by intro e; cases e; exact h rfl)
  | undefined, null | undefined, bool _ | undefined, num _ | undefined, str _
  | undefined, arr _ | undefined, obj _
  | null, undefined | null, bool _ | null, num _ | null, str _ | null, arr _ | null, obj _
  | bool _, undefined | bool _, null | bool _, num _ | bool _, str _ | bool _, arr _
  | bool _, obj _
  | num _, undefined | num _, null | num _, bool _ | num _, str _ | num _, arr _ | num _, obj _
  | str _, undefined | str _, null | str _, bool _ | str _, num _ | str _, arr _ | str _, obj _
  | arr _, undefined | arr _, null | arr _, bool _ | arr _, num _ | arr _, str _ | arr _, obj _
  | obj _, undefined | obj _, null | obj _, bool _ | obj _, num _ | obj _, str _
  | obj _, arr _ =>
    isFalse (by intro e; cases e)
/-- Decision procedure for equality of array contents. -/
def decEqItems : (a b : List JSValue) → Decidable (a = b)
  | [], [] => isTrue rfl
  | [], _ :: _ | _ :: _, [] => isFalse (by intro e; cases e)
  | x :: xs, y :: ys =>
    match decEq x y, decEqItems xs ys with
    | isTrue h, isTrue h2 => isTrue (by rw [h, h2])
    | isFalse h, _ => isFalse (by intro e; cases e; exact h rfl)
    | _, isFalse h => isFalse (by intro e; cases e; exact h rfl)
/-- Decision procedure for equality of object contents. -/
def decEqFields : (a b : List (String × JSValue)) → Decidable (a = b)
  | [], [] => isTrue rfl
  | [], _ :: _ | _ :: _, [] => isFalse (by intro e; cases e)
  | (k, x) :: xs, (l, y) :: ys =>
    if hk : k = l then
      match decEq x y, decEqFields xs ys with
      | isTrue h, isTrue h2 => isTrue (by rw [hk, h, h2])
      | isFalse h, _ => isFalse (by intro e; cases e; exact h rfl)
      | _, isFalse h => isFalse (by intro e; cases e; exact h rfl)
    else isFalse (by intro e; cases e; exact hk rfl)
end

instance : DecidableEq JSValue := decEq

/-- ToBoolean: the values that count as true in `if (v)`, `v ? a : b`, `!v`. -/
def truthy : JSValue → Bool
  | undefined => false
  | null => false
  | bool b => b
  | num (JSNumber.finite _ m _) => m != 0
  | num (JSNumber.infinite _) => true
  | num JSNumber.nan => false
  | str s => s != ""
  | arr _ => true
  | obj _ => true

/-- Own data property `k` of an object's field list; `undefined` when there is none. -/
def lookupField : List (String × JSValue) → String → JSValue
  | [], _ => undefined
  | (k', v) :: rest, k => if k' = k then v else lookupField rest k

end JSValue

/-- The exceptions the code can meet. -/
inductive JSError where
  | syntaxError
  | uriError
  | typeError
  | networkError
  | quotaExceeded
  | error (message : String)
  deriving DecidableEq, Repr

/-- The `message` property of an exception object (engine-defined text for built-in errors). -/
def JSError.message : JSError → String
  | .syntaxError => "SyntaxError"
  | .uriError => "URI malformed"
  | .typeError => "TypeError"
  | .networkError => "Failed to fetch"
  | .quotaExceeded => "The quota has been exceeded."
  | .error m => m

/-- Property read `v.k`: a TypeError on `null` and `undefined`, the own data property on an
object, `undefined` on the other values (exact for the names the code reads, `valid`, `user`
and `access_token`, which no built-in prototype defines). -/
def JSValue.get (v : JSValue) (k : String) : Except JSError JSValue :=
  match v with
  | .undefined => .error .typeError
  | .null => .error .typeError
  | .obj fields => .ok (JSValue.lookupField fields k)
  | _ => .ok .undefined

/-- Optional chaining `v?.k`. -/
def JSValue.getOpt (v : JSValue) (k : String) : JSValue :=
  match v with
  | .obj fields => JSValue.lookupField fields k
  | _ => .undefined

/-- ToBoolean of the `string | null` that `localStorage.getItem` and `URLSearchParams.get`
return: `null` and the empty string are false. -/
def truthyStr : Option String → Bool
  | none => false
  | some s => s != ""

/-! ## Browser state -/

/-- The entries of `localStorage`: string keys and string values, in insertion order; the
entry of a key is the first pair that carries it. -/
abbrev Storage := List (String × String)

/-- `localStorage.getItem(k)`; `none` is `null`. -/
def Storage.getItem : Storage → String → Option String
  | [], _ => none
  | (k', v) :: rest, k => if k' = k then some v else Storage.getItem rest k

/-- `localStorage.setItem(k, v)`: overwrites the entry of `k`, or adds one. -/
def Storage.setItem : Storage → String → String → Storage
  | [], k, v => [(k, v)]
  | (k', v') :: rest, k, v =>
    if k' = k then (k, v) :: rest else (k', v') :: Storage.setItem rest k v

/-- `localStorage.removeItem(k)`. -/
def Storage.removeItem : Storage → String → Storage
  | [], _ => []
  | (k', v') :: rest, k =>
    if k' = k then Storage.removeItem rest k else (k', v') :: Storage.removeItem rest k

/-- `URLSearchParams`: the decoded name/value pairs of a query string, in order. -/
abbrev URLSearchParams := List (String × String)

/-- `urlParams.get(name)`: the first value of `name`, or `null`. -/
def URLSearchParams.get : URLSearchParams → String → Option String
  | [], _ => none
  | (k', v) :: rest, k => if k' = k then some v else URLSearchParams.get rest k

/-- The state the code reads and writes: `localStorage`, the navigation target
`window.location.href`, the `status` and `message` React state of the callback page and the
redirects it has scheduled with `setTimeout` (delay in ms, route). -/
structure World where
  storage : Storage
  href : String
  status : String
  message : String
  timers : List (Nat × String)
  deriving DecidableEq, Repr

/-! ## Statement sequences -/

/-- A computation over the browser state that may throw: the result or the exception, and the
state reached (on an exception, the state at the throw). -/
def JS (α : Type) : Type := World → Except JSError α × World

namespace JS

/-- Return. -/
def ret {α : Type} (a : α) : JS α := fun w => (.ok a, w)

/-- Sequencing: `x; f`, where an exception thrown by `x` skips `f`. -/
def seq {α β : Type} (x : JS α) (f : α → JS β) : JS β := fun w =>
  match x w with
  | (.ok a, w1) => f a w1
  | (.error e, w1) => (.error e, w1)

/-- The statement `throw e`. -/
def raise {α : Type} (e : JSError) : JS α := fun w => (.error e, w)

/-- The statement `try { body } catch (e) { handler }`: the handler starts from the state
the body had reached. -/
def tryCatch {α : Type} (body : JS α) (handler : JSError → JS α) : JS α := fun w =>
  match body w with
  | (.ok a, w1) => (.ok a, w1)
  | (.error e, w1) => handler e w1

/-- Evaluation of an expression that touches no state. -/
def lift {α : Type} (x : Except JSError α) : JS α := fun w => (x, w)

instance : Monad JS where
  pure := ret
  bind := seq

/-- `localStorage.getItem(k)`. -/
def getItem (k : String) : JS (Option String) := fun w => (.ok (w.storage.getItem k), w)

/-- `localStorage.removeItem(k)`. -/
def removeItem (k : String) : JS Unit := fun w =>
  (.ok (), { w with storage := w.storage.removeItem k })

/-- `window.location.href = url`. -/
def setHref (url : String) : JS Unit := fun w => (.ok (), { w with href := url })

/-- `setStatus(s)` of the callback page. -/
def setStatus (s : String) : JS Unit := fun w => (.ok (), { w with status := s })

/-- `setMessage(m)` of the callback page. -/
def setMessage (m : String) : JS Unit := fun w => (.ok (), { w with message := m })

/-- `setTimeout(() => navigate(route, { replace: true }), delay)`. -/
def navigateAfter (delay : Nat) (route : String) : JS Unit := fun w =>
  (.ok (), { w with timers := w.timers ++ [(delay, route)] })

end JS

/-! ## Built-ins -/

/-- The built-ins and the build-time constant the code depends on. `none` stands for the
exception a built-in throws (`SyntaxError` for `JSON.parse`, `URIError` for
`decodeURIComponent`) and, for `JSON.stringify`, for the result `undefined`.
`storageAccepts` is the quota of `localStorage`: whether the browser stores a given content
(it accepts none when storage is disabled for the site). -/
structure Platform where
  jsonParse : String → Option JSValue
  jsonStringify : JSValue → Option String
  decodeURIComponent : String → Option String
  encodeURIComponent : String → String
  toStr : JSValue → String
  apiBaseUrl : String
  storageAccepts : Storage → Bool

namespace Platform

/-- `JSON.parse(text)` as an expression. -/
def parse (P : Platform) (text : String) : Except JSError JSValue :=
  match P.jsonParse text with
  | some v => .ok v
  | none => .error .syntaxError

/-- `decodeURIComponent(text)` as an expression. -/
def decode (P : Platform) (text : String) : Except JSError String :=
  match P.decodeURIComponent text with
  | some v => .ok v
  | none => .error .uriError

/-- `JSON.stringify(v)` where a string is expected: `undefined` is converted to
`"undefined"`. -/
def stringify (P : Platform) (v : JSValue) : String :=
  (P.jsonStringify v).getD "undefined"

end Platform

/-- `localStorage.setItem(k, v)`: the entry is written when the browser accepts the resulting
content; otherwise a `QuotaExceededError` is thrown and the content stays as it was. -/
def JS.setItem (P : Platform) (k v : String) : JS Unit := fun w =>
  if P.storageAccepts (w.storage.setItem k v) then
    (.ok (), { w with storage := w.storage.setItem k v })
  else
    (.error JSError.quotaExceeded, w)

/-- ToString of the `string | null` handed to a built-in that expects a string: `null`
becomes `"null"`. -/
def strArg : Option String → String
  | none => "null"
  | some s => s

/-! ## Network -/

/-- The body of a request: none, a text, or a `FormData` (field name, content). -/
inductive Body where
  | empty
  | text (s : String)
  | form (fields : List (String × String))
  deriving DecidableEq, Repr

/-- A call of `fetch(url, { method, headers, body })`. -/
structure Request where
  url : String
  method : String
  headers : List (String × String)
  body : Body
  deriving DecidableEq, Repr

/-- What `fetch` resolves to: the status and the text of the body. -/
structure Response where
  status : Nat
  body : String
  deriving DecidableEq, Repr

/-- The property `response.ok`: the status is in 200..299. -/
def Response.ok (r : Response) : Bool := decide (200 ≤ r.status) && decide (r.status ≤ 299)

/-- The call `response.json()`: the body parsed as JSON. -/
def Response.json (P : Platform) (r : Response) : Except JSError JSValue := P.parse r.body

/-- The backend as `fetch` sees it: a response, or the rejection of the promise. -/
abbrev Fetch := Request → Except JSError Response

/-! ## `services/authService.js` -/

namespace authService

/-- `authService.loginWithGoogle`. -/
def loginWithGoogle (P : Platform) : JS Unit := do
  let authUrl := P.apiBaseUrl ++ "/auth/oauth/google"
  JS.setHref authUrl

/-- `authService.signupWithGoogle`. -/
def signupWithGoogle (P : Platform) : JS Unit := do
  let authUrl := P.apiBaseUrl ++ "/auth/oauth/google"
  JS.setHref authUrl

/-- `authService.authenticateWithGoogle`. -/
def authenticateWithGoogle (P : Platform) : JS Unit := do
  let authUrl := P.apiBaseUrl ++ "/auth/oauth/google"
  JS.setHref authUrl

/-- `authService.isAuthenticated`: `!!(token && user)`. -/
def isAuthenticated : JS Bool := do
  let token ← JS.getItem "authToken"
  let user ← JS.getItem "user"
  return (truthyStr token && truthyStr user)

/-- `authService.getToken`. -/
def getToken : JS (Option String) :=
  JS.getItem "authToken"

/-- `authService.getCurrentUser`. -/
def getCurrentUser (P : Platform) : JS JSValue :=
  JS.tryCatch
    (do
      let localUser ← JS.getItem "user"
      if truthyStr localUser then
        JS.lift (P.parse (strArg localUser))
      else
        return JSValue.null)
    (fun _ => return JSValue.null)

/-- `authService.logout`. -/
def logout : JS Unit := do
  JS.removeItem "authToken"
  JS.removeItem "user"
  JS.setHref "/"

/-- `authService.validateToken`. -/
def validateToken (P : Platform) (fetch : Fetch) (token : String) : JS JSValue :=
  JS.tryCatch
    (do
      let response ← JS.lift (fetch
        { url := P.apiBaseUrl ++ "/auth/validate"
          method := "POST"
          headers := [("Content-Type", "application/json")]
          body := Body.text (P.stringify (JSValue.obj [("token", JSValue.str token)])) })
      if !response.ok then
        (JS.raise (JSError.error "Token validation failed") : JS Unit)
      let data ← JS.lift (response.json P)
      let valid ← JS.lift (data.get "valid")
      if valid.truthy then
        JS.lift (data.get "user")
      else
        return JSValue.null)
    (fun _ => return JSValue.null)

/-- `authService.handleAuthCallback`. -/
def handleAuthCallback (P : Platform) (urlParams : URLSearchParams) : JS Bool := do
  let token := urlParams.get "token"
  let userData := urlParams.get "user"
  if truthyStr token && truthyStr userData then
    JS.tryCatch
      (do
        let user ← JS.lift (P.decode (strArg userData) >>= P.parse)
        JS.setItem P "authToken" (strArg token)
        JS.setItem P "user" (P.stringify user)
        return true)
      (fun _ => return false)
  else
    return false

end authService

/-! ## `page/AuthCallback.jsx` -/

namespace AuthCallback

/-- The function `handleAuthCallback` of the `AuthCallback` component, from the parsed
`location.search`. -/
def handleAuthCallback (P : Platform) (urlParams : URLSearchParams) : JS Unit :=
  JS.tryCatch
    (do
      let token := urlParams.get "token"
      let userParam := urlParams.get "user"
      let error := urlParams.get "error"
      if truthyStr error then
        (JS.raise (JSError.error ("Erreur d'authentification: " ++ strArg error)) : JS Unit)
      if truthyStr token && truthyStr userParam then
        JS.tryCatch
          (do
            let user ← JS.lift (P.decode (strArg userParam) >>= P.parse)
            JS.setItem P "authToken" (strArg token)
            JS.setItem P "user" (P.stringify user)
            JS.setStatus "success"
            JS.setMessage "Connexion réussie ! Redirection..."
            JS.navigateAfter 1500 "/home")
          (fun _ => JS.raise (JSError.error "Données utilisateur invalides"))
      else
        JS.raise (JSError.error "Token ou données utilisateur manquants"))
    (fun error => do
      JS.setStatus "error"
      JS.setMessage ("Erreur lors de la connexion: " ++ error.message)
      JS.navigateAfter 3000 "/?error=auth_failed")

end AuthCallback

/-! ## `services/jobService.js` -/

namespace jobService

/-- The function `getAuthHeaders` of `jobService.js`. -/
def getAuthHeaders : JS (List (String × String)) := do
  let token ← JS.getItem "authToken"
  if !truthyStr token then
    (JS.raise (JSError.error "Utilisateur non authentifié.") : JS Unit)
  return [("Authorization", "Bearer " ++ strArg token)]

/-- `jobsService.getJobs`. -/
def getJobs (P : Platform) (fetch : Fetch) : JS JSValue := do
  let headers ← getAuthHeaders
  let response ← JS.lift (fetch
    { url := P.apiBaseUrl ++ "/jobs/", method := "GET", headers := headers, body := Body.empty })
  if !response.ok then
    (JS.raise (JSError.error "Erreur lors de la récupération des offres d'emploi.") : JS Unit)
  JS.lift (response.json P)

end jobService

/-! ## `services/resumeService.js` -/

namespace resumeService

/-- The function `getAuthHeaders` of `resumeService.js`. -/
def getAuthHeaders (P : Platform) : JS (List (String × String)) := do
  let stored ← JS.getItem "user"
  let user ← JS.lift (P.parse (strArg stored))
  let token := user.getOpt "access_token"
  if !token.truthy then
    (JS.raise (JSError.error "Utilisateur non authentifié.") : JS Unit)
  return [("Authorization", "Bearer " ++ P.toStr token)]

/-- `resumeService.getResumeData`; `null` when the backend has no CV. -/
def getResumeData (P : Platform) (fetch : Fetch) : JS JSValue := do
  let headers ← getAuthHeaders P
  let response ← JS.lift (fetch
    { url := P.apiBaseUrl ++ "/resume/data", method := "GET", headers := headers,
      body := Body.empty })
  if !response.ok then
    if response.status = 404 then
      return JSValue.null
    else
      JS.raise (JSError.error "Erreur lors de la récupération des données du CV.")
  else
    JS.lift (response.json P)

/-- `resumeService.uploadResume`, the file given by its content. -/
def uploadResume (P : Platform) (fetch : Fetch) (file : String) : JS JSValue := do
  let formData := [("resume", file)]
  let headers ← getAuthHeaders P
  let response ← JS.lift (fetch
    { url := P.apiBaseUrl ++ "/resume/upload", method := "POST", headers := headers,
      body := Body.form formData })
  if !response.ok then
    let errorData ← JS.lift (response.json P)
    let detail ← JS.lift (errorData.get "detail")
    if detail.truthy then
      JS.raise (JSError.error (P.toStr detail))
    else
      JS.raise (JSError.error "Erreur lors du téléchargement du CV.")
  else
    JS.lift (response.json P)

/-- `resumeService.deleteResume`. -/
def deleteResume (P : Platform) (fetch : Fetch) : JS JSValue := do
  let auth ← getAuthHeaders P
  let response ← JS.lift (fetch
    { url := P.apiBaseUrl ++ "/resume/delete", method := "POST",
      headers := auth ++ [("Content-Type", "application/json")], body := Body.empty })
  if !response.ok then
    (JS.raise (JSError.error "La suppression du CV a échoué.") : JS Unit)
  JS.lift (response.json P)

end resumeService

/-! ## Reference implementation of the built-ins

Executable definitions of the built-ins. Numbers are doubles, with the conversions between
decimal text and doubles computed exactly. Strings are sequences of Unicode scalar values:
a lone surrogate, which only the escape `\udXXX` of a JSON text can denote here, has no
counterpart in such a string, and `jsonParse` reads it as U+FFFD, the character every
conversion of the string to Unicode text puts in its place. -/

namespace Ref

/-- The double quote. -/
def dquote : Char := Char.ofNat 34

/-- The backslash. -/
def backslash : Char := Char.ofNat 92

/-- Value of a hexadecimal digit. -/
def hexDigit (c : Char) : Option Nat :=
  let n := c.toNat
  if 48 ≤ n ∧ n ≤ 57 then some (n - 48)
  else if 97 ≤ n ∧ n ≤ 102 then some (n - 87)
  else if 65 ≤ n ∧ n ≤ 70 then some (n - 55)
  else none

/-- Value of four hexadecimal digits. -/
def hex4 (a b c d : Char) : Option Nat :=
  match hexDigit a, hexDigit b, hexDigit c, hexDigit d with
  | some x, some y, some z, some t => some (x * 4096 + y * 256 + z * 16 + t)
  | _, _, _, _ => none

/-- Splits a URI component into literal characters and the bytes written `%XX`. -/
def percentTokens : List Char → Option (List (Char ⊕ Nat))
  | [] => some []
  | c :: rest =>
    if c = '%' then
      match rest with
      | a :: b :: rest2 =>
        match hexDigit a, hexDigit b, percentTokens rest2 with
        | some x, some y, some ts => some (Sum.inr (16 * x + y) :: ts)
        | _, _, _ => none
      | _ => none
    else
      (percentTokens rest).map (fun ts => Sum.inl c :: ts)

/-- A UTF-8 continuation byte. -/
def isCont (b : Nat) : Bool := decide (128 ≤ b) && decide (b ≤ 191)

/-- Decodes the escaped bytes as UTF-8; an escaped sequence that is not the UTF-8 encoding of
a code point is an error. -/
def utf8Tokens : List (Char ⊕ Nat) → Option (List Char)
  | [] => some []
  | Sum.inl c :: rest => (utf8Tokens rest).map (fun cs => c :: cs)
  | Sum.inr b :: rest =>
    if b < 128 then
      (utf8Tokens rest).map (fun cs => Char.ofNat b :: cs)
    else if 194 ≤ b ∧ b ≤ 223 then
      match rest with
      | Sum.inr b1 :: rest1 =>
        if isCont b1 then
          (utf8Tokens rest1).map (fun cs => Char.ofNat ((b - 192) * 64 + (b1 - 128)) :: cs)
        else none
      | _ => none
    else if 224 ≤ b ∧ b ≤ 239 then
      match rest with
      | Sum.inr b1 :: Sum.inr b2 :: rest2 =>
        let cp := (b - 224) * 4096 + (b1 - 128) * 64 + (b2 - 128)
        if isCont b1 && isCont b2 && decide (2048 ≤ cp)
            && !(decide (55296 ≤ cp) && decide (cp ≤ 57343)) then
          (utf8Tokens rest2).map (fun cs => Char.ofNat cp :: cs)
        else none
      | _ => none
    else if 240 ≤ b ∧ b ≤ 244 then
      match rest with
      | Sum.inr b1 :: Sum.inr b2 :: Sum.inr b3 :: rest3 =>
        let cp := (b - 240) * 262144 + (b1 - 128) * 4096 + (b2 - 128) * 64 + (b3 - 128)
        if isCont b1 && isCont b2 && isCont b3 && decide (65536 ≤ cp)
            && decide (cp ≤ 1114111) then
          (utf8Tokens rest3).map (fun cs => Char.ofNat cp :: cs)
        else none
      | _ => none
    else none

/-- The built-in `decodeURIComponent`; `none` is a `URIError`. -/
def decodeURIComponent (s : String) : Option String :=
  match percentTokens s.toList with
  | none => none
  | some ts => (utf8Tokens ts).map String.mk

/-- The characters `encodeURIComponent` leaves as they are. -/
def isUnreserved (c : Char) : Bool :=
  c.isAlphanum || "-_.!~*'()".toList.contains c

/-- The UTF-8 encoding of a character. -/
def utf8Bytes (c : Char) : List Nat :=
  let n := c.toNat
  if n < 128 then [n]
  else if n < 2048 then [192 + n / 64, 128 + n % 64]
  else if n < 65536 then [224 + n / 4096, 128 + n / 64 % 64, 128 + n % 64]
  else [240 + n / 262144, 128 + n / 4096 % 64, 128 + n / 64 % 64, 128 + n % 64]

/-- The escape `%XX` of a byte, in upper case. -/
def percentByte (b : Nat) : List Char :=
  ['%', (Nat.digitChar (b / 16)).toUpper, (Nat.digitChar (b % 16)).toUpper]

/-- The escape of one character. -/
def encodeChar (c : Char) : List Char :=
  if isUnreserved c then [c] else ((utf8Bytes c).map percentByte).flatten

/-- The built-in `encodeURIComponent`. -/
def encodeURIComponent (s : String) : String :=
  String.mk ((s.toList.map encodeChar).flatten)

/-- The number of binary digits of a number, by repeated halving. -/
def bitLength : Nat → Nat → Nat
  | 0, _ => 0
  | fuel + 1, n => if n = 0 then 0 else 1 + bitLength fuel (n / 2)

/-- Removes the factors two of a mantissa, raising the exponent. -/
def stripTwos : Nat → Nat → Int → Nat × Int
  | 0, m, e => (m, e)
  | fuel + 1, m, e => if m % 2 = 0 ∧ m ≠ 0 then stripTwos fuel (m / 2) (e + 1) else (m, e)

/-- The finite double `± m × 2 ^ e` for a mantissa of at most 54 bits. -/
def mkFinite (neg : Bool) (m : Nat) (e : Int) : JSNumber :=
  if m = 0 then JSNumber.finite neg 0 0
  else JSNumber.finite neg (stripTwos 64 m e).1 (stripTwos 64 m e).2

/-- The quotient `a / b` rounded to the nearest integer, a tie to the even one. -/
def roundDiv (a b : Nat) : Nat :=
  if b < 2 * (a % b) ∨ (2 * (a % b) = b ∧ (a / b) % 2 = 1) then a / b + 1 else a / b

/-- The double nearest to `± digits × 10 ^ e10` (ties to even), as the conversion of a
numeric literal computes it: the quotient is scaled by the power of two that leaves a 53-bit
mantissa, not below the exponent of the subnormal numbers, and rounded; what reaches
`2 ^ 1024` is an infinity. -/
def ofDecimal (neg : Bool) (digits : Nat) (e10 : Int) : JSNumber :=
  if digits = 0 then JSNumber.finite neg 0 0
  else
    let n := digits * 10 ^ e10.toNat
    let d := 10 ^ (-e10).toNat
    let a : Int := (bitLength n n : Int) - (bitLength d d : Int)
    let q0 : Int := a - 53
    let f0 := if 0 ≤ q0 then n / (d * 2 ^ q0.toNat) else n * 2 ^ (-q0).toNat / d
    let q1 : Int := if 2 ^ 53 ≤ f0 then q0 + 1 else q0
    let q : Int := if q1 < -1074 then -1074 else q1
    let m := if 0 ≤ q then roundDiv n (d * 2 ^ q.toNat) else roundDiv (n * 2 ^ (-q).toNat) d
    if 971 < q ∨ (q = 971 ∧ 2 ^ 53 ≤ m) then JSNumber.infinite neg
    else mkFinite neg m q

/-- The double of an integer. -/
def ofInt (n : Int) : JSNumber := ofDecimal (decide (n < 0)) n.natAbs 0

/-- The least `j` from the given one with `den ≤ num × 10 ^ j`. -/
def firstScale : Nat → Nat → Nat → Nat → Nat
  | 0, _, _, j => j
  | fuel + 1, num, den, j =>
    if den ≤ num * 10 ^ j then j else firstScale fuel num den (j + 1)

/-- The decimal exponent `n` of the positive rational `num / den`:
`10 ^ (n - 1) ≤ num / den < 10 ^ n`. -/
def decimalExponent (num den : Nat) : Int :=
  if den ≤ num then ((Nat.toDigits 10 (num / den)).length : Int)
  else 1 - (firstScale 400 num den 1 : Int)

/-- Searches the least number of digits `k` for which a `k`-digit decimal `s × 10 ^ (n - k)`
converts back to the double `x = num / den`, and returns the `s` nearest to `x` (the even one
on a tie) with its `k`. -/
def shortestDigits : Nat → Nat → JSNumber → Nat → Nat → Int → Nat × Nat
  | 0, k, _, _, _, _ => (0, k)
  | fuel + 1, k, x, num, den, n =>
    let a := if n ≤ (k : Int) then num * 10 ^ ((k : Int) - n).toNat else num
    let b := if n ≤ (k : Int) then den else den * 10 ^ (n - (k : Int)).toNat
    let lo := a / b
    let r := a % b
    let okLo := decide (ofDecimal false lo (n - (k : Int)) = x)
    let okHi := decide (r ≠ 0) && decide (ofDecimal false (lo + 1) (n - (k : Int)) = x)
    if okLo && okHi then
      (if 2 * r < b ∨ (2 * r = b ∧ lo % 2 = 0) then (lo, k) else (lo + 1, k))
    else if okLo then (lo, k)
    else if okHi then (lo + 1, k)
    else shortestDigits fuel (k + 1) x num den n

/-- Removes the zeros at the end of a digit sequence. -/
def stripZeros (ds : List Char) : List Char :=
  (ds.reverse.dropWhile (fun c => c = '0')).reverse

/-- The text of a positive finite number from its shortest digits `ds` and the decimal
exponent `n` (the value is `0.ds × 10 ^ n`), as `Number.prototype.toString` lays it out. -/
def layoutNumber (ds : List Char) (n : Int) : List Char :=
  let k : Int := ds.length
  if k ≤ n ∧ n ≤ 21 then ds ++ List.replicate (n - k).toNat '0'
  else if 0 < n ∧ n ≤ 21 then ds.take n.toNat ++ ['.'] ++ ds.drop n.toNat
  else if -6 < n ∧ n ≤ 0 then ['0', '.'] ++ List.replicate (-n).toNat '0' ++ ds
  else
    let e := n - 1
    let mant := if ds.length = 1 then ds else ds.take 1 ++ ['.'] ++ ds.drop 1
    mant ++ ['e', if e < 0 then '-' else '+'] ++ Nat.toDigits 10 e.natAbs

/-- The text of the positive finite double `m × 2 ^ e`. -/
def positiveToString (m : Nat) (e : Int) : String :=
  let num := if 0 ≤ e then m * 2 ^ e.toNat else m
  let den := if 0 ≤ e then 1 else 2 ^ (-e).toNat
  let n := decimalExponent num den
  let sk := shortestDigits 17 1 (JSNumber.finite false m e) num den n
  let ds := Nat.toDigits 10 sk.1
  String.mk (layoutNumber (stripZeros ds) (n + ((ds.length : Int) - (sk.2 : Int))))

/-- The conversion `Number::toString` (radix 10). -/
def numberToString : JSNumber → String
  | JSNumber.nan => "NaN"
  | JSNumber.infinite neg => if neg then "-Infinity" else "Infinity"
  | JSNumber.finite neg m e =>
    if m = 0 then "0"
    else if neg then "-" ++ positiveToString m e
    else positiveToString m e

/-- A number in `JSON.stringify`: the text of a finite number, `null` for the others. -/
def numberToJson : JSNumber → String
  | JSNumber.finite neg m e => numberToString (JSNumber.finite neg m e)
  | _ => "null"

/-- The escape of one character inside a JSON string. -/
def quoteChar (c : Char) : List Char :=
  if c = dquote then [backslash, dquote]
  else if c = backslash then [backslash, backslash]
  else if c.toNat = 8 then [backslash, 'b']
  else if c.toNat = 12 then [backslash, 'f']
  else if c.toNat = 10 then [backslash, 'n']
  else if c.toNat = 13 then [backslash, 'r']
  else if c.toNat = 9 then [backslash, 't']
  else if c.toNat < 32 then
    [backslash, 'u', '0', '0', Nat.digitChar (c.toNat / 16), Nat.digitChar (c.toNat % 16)]
  else [c]

/-- A string as a JSON string literal. -/
def quote (s : String) : String :=
  String.mk (dquote :: ((s.toList.map quoteChar).flatten ++ [dquote]))

mutual
/-- The built-in `JSON.stringify` (no indentation); `none` is the result `undefined`. -/
def jsonStringify : JSValue → Option String
  | JSValue.undefined => none
  | JSValue.null => some "null"
  | JSValue.bool b => some (if b then "true" else "false")
  | JSValue.num x => some (numberToJson x)
  | JSValue.str s => some (quote s)
  | JSValue.arr items => some ("[" ++ ",".intercalate (stringifyItems items) ++ "]")
  | JSValue.obj fields => some ("\x7b" ++ ",".intercalate (stringifyFields fields) ++ "\x7d")
/-- The elements of an array, serialised; `undefined` is written `null`. -/
def stringifyItems : List JSValue → List String
  | [] => []
  | v :: rest => (jsonStringify v).getD "null" :: stringifyItems rest
/-- The members of an object, serialised; a member whose value is `undefined` is left out. -/
def stringifyFields : List (String × JSValue) → List String
  | [] => []
  | (k, v) :: rest =>
    match jsonStringify v with
    | none => stringifyFields rest
    | some t => (quote k ++ ":" ++ t) :: stringifyFields rest
end

mutual
/-- ToString, as a template literal applies it. -/
def toStr : JSValue → String
  | JSValue.undefined => "undefined"
  | JSValue.null => "null"
  | JSValue.bool b => if b then "true" else "false"
  | JSValue.num x => numberToString x
  | JSValue.str s => s
  | JSValue.arr items => ",".intercalate (toStrItems items)
  | JSValue.obj _ => "[object Object]"
/-- The elements of an array as `Array.prototype.flatten` converts them. -/
def toStrItems : List JSValue → List String
  | [] => []
  | JSValue.undefined :: rest => "" :: toStrItems rest
  | JSValue.null :: rest => "" :: toStrItems rest
  | v :: rest => toStr v :: toStrItems rest
end

/-- Skips JSON white space. -/
def skipWs : List Char → List Char
  | [] => []
  | c :: rest =>
    if c = ' ' ∨ c.toNat = 9 ∨ c.toNat = 10 ∨ c.toNat = 13 then skipWs rest else c :: rest

/-- Reads decimal digits, accumulating their value. -/
def parseDigits : Nat → List Char → Nat × List Char
  | acc, [] => (acc, [])
  | acc, c :: rest =>
    if c.isDigit then parseDigits (acc * 10 + (c.toNat - 48)) rest else (acc, c :: rest)

/-- Splits off the leading decimal digits. -/
def takeDigits : List Char → List Char × List Char
  | [] => ([], [])
  | c :: rest =>
    if c.isDigit then ((takeDigits rest).1.cons c, (takeDigits rest).2) else ([], c :: rest)

/-- The value of a digit sequence. -/
def digitsValue (ds : List Char) : Nat :=
  ds.foldl (fun acc c => acc * 10 + (c.toNat - 48)) 0

/-- Reads the exponent part of a JSON number, if there is one: `e` or `E`, an optional
sign and at least one digit. -/
def parseExponent : List Char → Option (Int × List Char)
  | [] => some (0, [])
  | c :: rest =>
    if c = 'e' ∨ c = 'E' then
      match rest with
      | [] => none
      | s :: rest1 =>
        if s = '-' then
          (if (takeDigits rest1).1 = [] then none
           else some (-(digitsValue (takeDigits rest1).1 : Int), (takeDigits rest1).2))
        else if s = '+' then
          (if (takeDigits rest1).1 = [] then none
           else some ((digitsValue (takeDigits rest1).1 : Int), (takeDigits rest1).2))
        else
          (if (takeDigits (s :: rest1)).1 = [] then none
           else some ((digitsValue (takeDigits (s :: rest1)).1 : Int),
             (takeDigits (s :: rest1)).2))
    else some (0, c :: rest)

/-- Reads the fraction part of a JSON number, if there is one: a point and at least one
digit. -/
def parseFraction : List Char → Option (List Char × List Char)
  | [] => some ([], [])
  | c :: rest =>
    if c = '.' then
      (if (takeDigits rest).1 = [] then none else some (takeDigits rest))
    else some ([], c :: rest)

/-- Reads a JSON number after its sign: `0` or a digit sequence without a leading zero, then
an optional fraction and an optional exponent; the value is the nearest double. -/
def parseNumber (neg : Bool) : List Char → Option (JSNumber × List Char)
  | [] => none
  | c :: rest =>
    if c.isDigit then
      let int := if c = '0' then ([c], rest) else takeDigits (c :: rest)
      match parseFraction int.2 with
      | none => none
      | some (frac, rest1) =>
        match parseExponent rest1 with
        | none => none
        | some (e, rest2) =>
          some (ofDecimal neg (digitsValue (int.1 ++ frac)) (e - (frac.length : Int)), rest2)
    else none

/-- The character U+FFFD, which stands for a lone surrogate. -/
def replacement : Char := Char.ofNat 65533

/-- The low surrogate that the text starts with as an escape `\uDC00`..`\uDFFF`, if it
does. -/
def lowSurrogateAhead : List Char → Option Nat
  | b :: u :: l1 :: l2 :: l3 :: l4 :: _ =>
    match hex4 l1 l2 l3 l4 with
    | none => none
    | some lo => if b = backslash ∧ u = 'u' ∧ 56320 ≤ lo ∧ lo ≤ 57343 then some lo else none
  | _ => none

/-- Reads a JSON string after its opening quote, accumulating the characters read. An escaped
surrogate pair is one character; an escaped surrogate without its partner is read as
U+FFFD. -/
def parseString : List Char → List Char → Option (String × List Char)
  | _, [] => none
  | acc, c :: rest =>
    if c = dquote then some (String.mk acc, rest)
    else if c = backslash then
      match rest with
      | [] => none
      | e :: rest1 =>
        if e = dquote then parseString (acc ++ [dquote]) rest1
        else if e = backslash then parseString (acc ++ [backslash]) rest1
        else if e = '/' then parseString (acc ++ ['/']) rest1
        else if e = 'b' then parseString (acc ++ [Char.ofNat 8]) rest1
        else if e = 'f' then parseString (acc ++ [Char.ofNat 12]) rest1
        else if e = 'n' then parseString (acc ++ [Char.ofNat 10]) rest1
        else if e = 'r' then parseString (acc ++ [Char.ofNat 13]) rest1
        else if e = 't' then parseString (acc ++ [Char.ofNat 9]) rest1
        else if e = 'u' then
          match rest1 with
          | h1 :: h2 :: h3 :: h4 :: rest2 =>
            match hex4 h1 h2 h3 h4 with
            | none => none
            | some hi =>
              if hi < 55296 ∨ 57343 < hi then parseString (acc ++ [Char.ofNat hi]) rest2
              else if 56320 ≤ hi then parseString (acc ++ [replacement]) rest2
              else
                match lowSurrogateAhead rest2 with
                | none => parseString (acc ++ [replacement]) rest2
                | some lo =>
                  match rest2 with
                  | _ :: _ :: _ :: _ :: _ :: _ :: rest3 =>
                    parseString
                      (acc ++ [Char.ofNat (65536 + (hi - 55296) * 1024 + (lo - 56320))]) rest3
                  | _ => none
          | _ => none
        else none
    else if c.toNat < 32 then none
    else parseString (acc ++ [c]) rest

/-- An array index: the canonical decimal string of a number below `2^32 - 1`. -/
def arrayIndex (k : String) : Option Nat :=
  match k.toList with
  | [] => none
  | c :: rest =>
    if k.toList.all Char.isDigit ∧ (c ≠ '0' ∨ rest = []) then
      let n := (parseDigits 0 k.toList).1
      if n < 4294967295 then some n else none
    else none

/-- Adds a member whose key is the array index `i` to an object that has no such member:
after the smaller array indices, before the other keys. -/
def insertIndex (i : Nat) (k : String) (v : JSValue) :
    List (String × JSValue) → List (String × JSValue)
  | [] => [(k, v)]
  | (k', v') :: rest =>
    match arrayIndex k' with
    | some j => if j < i then (k', v') :: insertIndex i k v rest else (k, v) :: (k', v') :: rest
    | none => (k, v) :: (k', v') :: rest

/-- Replaces the value of the member `k`. -/
def replaceField (k : String) (v : JSValue) : List (String × JSValue) → List (String × JSValue)
  | [] => []
  | (k', v') :: rest => if k' = k then (k, v) :: rest else (k', v') :: replaceField k v rest

/-- Defines the member `k` of an object: an existing member keeps its place; a new one goes
among the array indices in ascending order, or else to the end. -/
def defineField (fields : List (String × JSValue)) (k : String) (v : JSValue) :
    List (String × JSValue) :=
  if fields.any (fun f => f.1 = k) then replaceField k v fields
  else
    match arrayIndex k with
    | some i => insertIndex i k v fields
    | none => fields ++ [(k, v)]

mutual
/-- Reads one JSON value, with a bound on the number of nested calls. -/
def parseValue : Nat → List Char → Option (JSValue × List Char)
  | 0, _ => none
  | fuel + 1, cs =>
    match skipWs cs with
    | [] => none
    | c :: rest =>
      if c = '{' then
        match skipWs rest with
        | [] => none
        | d :: rest1 =>
          if d = '}' then some (JSValue.obj [], rest1) else parseMembers fuel [] (d :: rest1)
      else if c = '[' then
        match skipWs rest with
        | [] => none
        | d :: rest1 =>
          if d = ']' then some (JSValue.arr [], rest1) else parseElements fuel [] (d :: rest1)
      else if c = dquote then
        (parseString [] rest).map (fun r => (JSValue.str r.1, r.2))
      else if c = '-' then
        (parseNumber true rest).map (fun r => (JSValue.num r.1, r.2))
      else if c.isDigit then
        (parseNumber false (c :: rest)).map (fun r => (JSValue.num r.1, r.2))
      else
        match c :: rest with
        | 'n' :: 'u' :: 'l' :: 'l' :: rest1 => some (JSValue.null, rest1)
        | 't' :: 'r' :: 'u' :: 'e' :: rest1 => some (JSValue.bool true, rest1)
        | 'f' :: 'a' :: 'l' :: 's' :: 'e' :: rest1 => some (JSValue.bool false, rest1)
        | _ => none
/-- Reads the elements of an array up to its closing bracket. -/
def parseElements : Nat → List JSValue → List Char → Option (JSValue × List Char)
  | 0, _, _ => none
  | fuel + 1, acc, cs =>
    match parseValue fuel cs with
    | none => none
    | some (v, rest) =>
      match skipWs rest with
      | [] => none
      | c :: rest1 =>
        if c = ',' then parseElements fuel (acc ++ [v]) rest1
        else if c = ']' then some (JSValue.arr (acc ++ [v]), rest1)
        else none
/-- Reads the members of an object up to its closing brace. -/
def parseMembers : Nat → List (String × JSValue) → List Char → Option (JSValue × List Char)
  | 0, _, _ => none
  | fuel + 1, acc, cs =>
    match skipWs cs with
    | [] => none
    | q :: rest =>
      if q = dquote then
        match parseString [] rest with
        | none => none
        | some (k, rest1) =>
          match skipWs rest1 with
          | [] => none
          | c :: rest2 =>
            if c = ':' then
              match parseValue fuel rest2 with
              | none => none
              | some (v, rest3) =>
                match skipWs rest3 with
                | [] => none
                | d :: rest4 =>
                  if d = ',' then parseMembers fuel (defineField acc k v) rest4
                  else if d = '}' then some (JSValue.obj (defineField acc k v), rest4)
                  else none
            else none
      else none
end

/-- The built-in `JSON.parse`; `none` is a `SyntaxError`. Every call of the reader consumes
a character before the next nested one, so twice the length of the text bounds the nesting. -/
def jsonParse (s : String) : Option JSValue :=
  match parseValue (2 * s.length + 2) s.toList with
  | none => none
  | some (v, rest) => if skipWs rest = [] then some v else none

/-- The length of a string in UTF-16 code units. -/
def utf16Length (s : String) : Nat :=
  (s.toList.map (fun c => if c.toNat < 65536 then 1 else 2)).sum

/-- The size of a `localStorage` content: the code units of its keys and values. -/
def storageSize : Storage → Nat
  | [] => 0
  | (k, v) :: rest => utf16Length k + utf16Length v + storageSize rest

end Ref

/-- The reference platform: the built-ins of `Ref`, the default API base of the sources,
`'http://localhost:8000/api/v1'`, and a quota of 5 Mi UTF-16 code units for the keys and
values of `localStorage`. -/
def refPlatform : Platform where
  jsonParse := Ref.jsonParse
  jsonStringify := Ref.jsonStringify
  decodeURIComponent := Ref.decodeURIComponent
  encodeURIComponent := Ref.encodeURIComponent
  toStr := Ref.toStr
  apiBaseUrl := "http://localhost:8000/api/v1"
  storageAccepts := fun s => decide (Ref.storageSize s ≤ 5242880)

end AuthApp

/-! ## Concrete states and inputs -/

namespace AuthApp

instance {ε α : Type} [DecidableEq ε] [DecidableEq α] : DecidableEq (Except ε α)
  | .ok a, .ok b =>
    if h : a = b then isTrue (by rw [h]) else isFalse (by intro e; cases e; exact h rfl)
  | .error a, .error b =>
    if h : a = b then isTrue (by rw [h]) else isFalse (by intro e; cases e; exact h rfl)
  | .ok _, .error _ => isFalse (by intro e; cases e)
  | .error _, .ok _ => isFalse (by intro e; cases e)

/-- The callback page as it is mounted, with an empty `localStorage`. -/
def freshWorld : World where
  storage := []
  href := "http://localhost:5173/auth/callback"
  status := "processing"
  message := "Finalisation de votre connexion..."
  timers := []

/-- The same page when an earlier session of another user is stored. -/
def sessionWorld : World :=
  { freshWorld with storage := [("authToken", "old-token"), ("user", "\x7b\"name\":\"Bob\"\x7d")] }

/-- The user profile with the single member `name`. -/
def annProfile : JSValue := JSValue.obj [("name", JSValue.str "Ann")]

/-- Callback parameters of a successful sign-in: `?token=abc&user=...`, the user being the
URL-encoded text `{"name":"Ann"}` (as `urlParams.get` returns it). -/
def annParams : URLSearchParams :=
  [("token", "abc"), ("user", "%7B%22name%22%3A%22Ann%22%7D")]

/-- The same parameters preceded by `error=access_denied`. -/
def errorParams : URLSearchParams := ("error", "access_denied") :: annParams

/-- Callback parameters with a token and no user. -/
def tokenOnlyParams : URLSearchParams := [("token", "abc")]

/-- Callback parameters whose user is not URL-encoded text: a lone `%`. -/
def malformedParams : URLSearchParams := [("token", "abc"), ("user", "%")]

end AuthApp

namespace AuthApp

/-- A backend that answers every request with status 200 and the given body. -/
def replyWith (body : String) : Fetch := fun _ => .ok { status := 200, body := body }

/-- A backend that cannot be reached: `fetch` rejects. -/
def unreachable : Fetch := fun _ => .error JSError.networkError

/-- The state after the sign-in `annParams` on a fresh page. -/
def signedInWorld : World :=
  { freshWorld with
    storage := [("authToken", "abc"), ("user", "\x7b\"name\":\"Ann\"\x7d")] }

/-- A state without `authToken` whose stored profile has a member `access_token`. -/
def profileTokenWorld : World :=
  { freshWorld with storage := [("user", "\x7b\"access_token\":\"zzz\"\x7d")] }

end AuthApp

namespace AuthApp

/-- A backend that answers every request with the given status and body. -/
def respondWith (status : Nat) (body : String) : Fetch :=
  fun _ => .ok { status := status, body := body }

/-- A state with a session whose stored profile carries the token as `access_token`. -/
def resumeWorld : World :=
  { freshWorld with
    storage := [("authToken", "zzz"),
      ("user", "\x7b\"access_token\":\"zzz\",\"name\":\"Ann\"\x7d")] }

end AuthApp

namespace AuthApp

/-- A browser whose `localStorage` quota is used up by the content of `sessionWorld`: 36
UTF-16 code units of keys and values. -/
def fullPlatform : Platform :=
  { refPlatform with storageAccepts := fun s => decide (Ref.storageSize s ≤ 36) }

/-- A user profile whose JSON text is longer than the one stored in `sessionWorld`. -/
def marieProfile : JSValue := JSValue.obj [("name", JSValue.str "Annabelle-Marie")]

/-- Callback parameters of a sign-in with the token `abc` and the profile `marieProfile`,
URL-encoded. -/
def marieParams : URLSearchParams :=
  [("token", "abc"), ("user", "%7B%22name%22%3A%22Annabelle-Marie%22%7D")]

end AuthApp

namespace AuthApp

/-! ## Storage facts -/

theorem Storage.getItem_setItem_same (s : Storage) (k v : String) :
    (s.setItem k v).getItem k = some v := by
  induction s with
  | nil => simp [Storage.setItem, Storage.getItem]
  | cons e rest ih =>
    obtain ⟨k', v'⟩ := e
    by_cases h : k' = k
    · simp [Storage.setItem, Storage.getItem, h]
    · simp [Storage.setItem, Storage.getItem, h, ih]

theorem Storage.getItem_setItem_other (s : Storage) (k v j : String) (h : k ≠ j) :
    (s.setItem k v).getItem j = s.getItem j := by
  induction s with
  | nil => simp [Storage.setItem, Storage.getItem, h]
  | cons e rest ih =>
    obtain ⟨k', v'⟩ := e
    by_cases hk : k' = k
    · subst hk
      simp [Storage.setItem, Storage.getItem, h]
    · by_cases hj : k' = j
      · subst hj
        simp [Storage.setItem, Storage.getItem, hk]
      · simp [Storage.setItem, Storage.getItem, hk, hj, ih]

theorem Storage.setItem_of_getItem (s : Storage) (k v : String) (h : s.getItem k = some v) :
    s.setItem k v = s := by
  induction s with
  | nil => simp [Storage.getItem] at h
  | cons e rest ih =>
    obtain ⟨k', v'⟩ := e
    by_cases hk : k' = k
    · simp [Storage.getItem, hk] at h
      simp [Storage.setItem, hk, h]
    · simp [Storage.getItem, hk] at h
      simp [Storage.setItem, hk, ih h]

theorem Storage.getItem_removeItem_same (s : Storage) (k : String) :
    (s.removeItem k).getItem k = none := by
  induction s with
  | nil => simp [Storage.removeItem, Storage.getItem]
  | cons e rest ih =>
    obtain ⟨k', v'⟩ := e
    by_cases hk : k' = k
    · simp [Storage.removeItem, hk, ih]
    · simp [Storage.removeItem, Storage.getItem, hk, ih]

theorem Storage.getItem_removeItem_other (s : Storage) (k j : String) (h : k ≠ j) :
    (s.removeItem k).getItem j = s.getItem j := by
  induction s with
  | nil => simp [Storage.removeItem, Storage.getItem]
  | cons e rest ih =>
    obtain ⟨k', v'⟩ := e
    by_cases hk : k' = k
    · subst hk
      simp [Storage.removeItem, Storage.getItem, h, ih]
    · by_cases hj : k' = j
      · subst hj
        simp [Storage.removeItem, Storage.getItem, hk]
      · simp [Storage.removeItem, Storage.getItem, hk, hj, ih]

theorem truthyStr_some (s : String) : truthyStr (some s) = true ↔ s ≠ "" := by
  simp [truthyStr]

theorem truthyStr_eq_true (o : Option String) :
    truthyStr o = true ↔ ∃ s, o = some s ∧ s ≠ "" := by
  cases o <;> simp [truthyStr]

/-! ## Statement sequences, unfolded -/

theorem JS.bind_apply {α β : Type} (x : JS α) (f : α → JS β) (w : World) :
    (x >>= f) w = match x w with
      | (.ok a, w1) => f a w1
      | (.error e, w1) => (.error e, w1) := rfl

theorem JS.pure_apply {α : Type} (a : α) (w : World) : (pure a : JS α) w = (.ok a, w) := rfl

/-- The service function on a non-empty token and a non-empty user that decodes to JSON:
the outcome follows what `localStorage` accepts. -/
theorem service_handleAuthCallback_valid (P : Platform) (urlParams : URLSearchParams)
    (w : World) (t x d : String) (u : JSValue)
    (ht : urlParams.get "token" = some t) (hx : urlParams.get "user" = some x)
    (htne : t ≠ "") (hxne : x ≠ "")
    (hd : P.decodeURIComponent x = some d) (hp : P.jsonParse d = some u) :
    authService.handleAuthCallback P urlParams w =
      if P.storageAccepts (w.storage.setItem "authToken" t) = true then
        if P.storageAccepts
            ((w.storage.setItem "authToken" t).setItem "user" (P.stringify u)) = true then
          (.ok true, { w with
            storage := (w.storage.setItem "authToken" t).setItem "user" (P.stringify u) })
        else
          (.ok false, { w with storage := w.storage.setItem "authToken" t })
      else
        (.ok false, w) := by
  by_cases h1 : P.storageAccepts (w.storage.setItem "authToken" t) = true
  · by_cases h2 : P.storageAccepts
        ((w.storage.setItem "authToken" t).setItem "user" (P.stringify u)) = true
    · simp [authService.handleAuthCallback, ht, hx, truthyStr, htne, hxne, JS.tryCatch,
        JS.seq, JS.ret, JS.lift, Platform.decode, Platform.parse, hd, hp, strArg,
        JS.setItem, bind, pure, Except.bind, h1, h2]
    · simp [authService.handleAuthCallback, ht, hx, truthyStr, htne, hxne, JS.tryCatch,
        JS.seq, JS.ret, JS.lift, Platform.decode, Platform.parse, hd, hp, strArg,
        JS.setItem, bind, pure, Except.bind, h1, h2]
  · simp [authService.handleAuthCallback, ht, hx, truthyStr, htne, hxne, JS.tryCatch,
      JS.seq, JS.ret, JS.lift, Platform.decode, Platform.parse, hd, hp, strArg,
      JS.setItem, bind, pure, Except.bind, h1]

/-- The service function on a non-empty token and a non-empty user that decodes to JSON,
when `localStorage` accepts both writes. -/
theorem service_handleAuthCallback_ok (P : Platform) (urlParams : URLSearchParams)
    (w : World) (t x d : String) (u : JSValue)
    (ht : urlParams.get "token" = some t) (hx : urlParams.get "user" = some x)
    (htne : t ≠ "") (hxne : x ≠ "")
    (hd : P.decodeURIComponent x = some d) (hp : P.jsonParse d = some u)
    (hf1 : P.storageAccepts (w.storage.setItem "authToken" t) = true)
    (hf2 : P.storageAccepts
      ((w.storage.setItem "authToken" t).setItem "user" (P.stringify u)) = true) :
    authService.handleAuthCallback P urlParams w =
      (.ok true, { w with
        storage := (w.storage.setItem "authToken" t).setItem "user" (P.stringify u) }) := by
  rw [service_handleAuthCallback_valid P urlParams w t x d u ht hx htne hxne hd hp]
  simp [hf1, hf2]

end AuthApp

namespace AuthApp

/-! ## The OAuth callback -/

/-- The page-level handler on a parameter set with a non-empty `error`: it ends in the status
`error` with the raw error string in the message, and does not touch `localStorage`. -/
theorem page_handleAuthCallback_error_param (P : Platform) (urlParams : URLSearchParams)
    (w : World) (e : String) (he : urlParams.get "error" = some e) (hne : e ≠ "") :
    AuthCallback.handleAuthCallback P urlParams w =
      (.ok (), { w with
        status := "error"
        message := "Erreur lors de la connexion: " ++ ("Erreur d'authentification: " ++ e)
        timers := w.timers ++ [(3000, "/?error=auth_failed")] }) := by
  simp [AuthCallback.handleAuthCallback, he, truthyStr, hne, JS.tryCatch, JS.seq, JS.ret,
    JS.raise, JS.setStatus, JS.setMessage, JS.navigateAfter, bind, pure, strArg,
    JSError.message]

/-- C1, the code at the failing input `?error=access_denied&token=abc&user=...` with a
session of another user stored: `authService.handleAuthCallback` never reads `error`, returns
`true` and overwrites both `authToken` and `user`; the handler of the callback page, on the
same input, reports the error and leaves `localStorage` as it was. -/
theorem handleAuthCallback_error_param_overwrites_session :
    errorParams.get "error" = some "access_denied" ∧
    authService.handleAuthCallback refPlatform errorParams sessionWorld =
      (.ok true, { sessionWorld with
        storage := [("authToken", "abc"), ("user", "\x7b\"name\":\"Ann\"\x7d")] }) ∧
    sessionWorld.storage.getItem "authToken" = some "old-token" ∧
    sessionWorld.storage.getItem "user" = some "\x7b\"name\":\"Bob\"\x7d" ∧
    AuthCallback.handleAuthCallback refPlatform errorParams sessionWorld =
      (.ok (), { sessionWorld with
        status := "error"
        message := "Erreur lors de la connexion: Erreur d'authentification: access_denied"
        timers := [(3000, "/?error=auth_failed")] }) := by
  decide

/-- C2 as stated fails on a full `localStorage`. With the quota used up by the stored session
of another user, the sign-in `token=abc`, `user` the URL-encoding of the JSON text of
`marieProfile`, meets every condition of the claim, yet `handleAuthCallback` returns `false`:
the first `setItem` replaces `authToken`, the second is refused, and the `catch` reports
failure with the new token next to the old profile. -/
theorem handleAuthCallback_full_storage_fails :
    marieParams.get "token" = some "abc" ∧
    fullPlatform.jsonStringify marieProfile = some "\x7b\"name\":\"Annabelle-Marie\"\x7d" ∧
    fullPlatform.jsonParse "\x7b\"name\":\"Annabelle-Marie\"\x7d" = some marieProfile ∧
    marieParams.get "user"
      = some (fullPlatform.encodeURIComponent "\x7b\"name\":\"Annabelle-Marie\"\x7d") ∧
    fullPlatform.decodeURIComponent
        (fullPlatform.encodeURIComponent "\x7b\"name\":\"Annabelle-Marie\"\x7d")
      = some "\x7b\"name\":\"Annabelle-Marie\"\x7d" ∧
    fullPlatform.storageAccepts sessionWorld.storage = true ∧
    authService.handleAuthCallback fullPlatform marieParams sessionWorld =
      (.ok false, { sessionWorld with
        storage := [("authToken", "abc"), ("user", "\x7b\"name\":\"Bob\"\x7d")] }) := by
  decide

/-- C2, amended: for a non-empty token `t` and a value `u` that `JSON.stringify` and
`JSON.parse` carry to the text `js` and back, from any state in which `localStorage` accepts
the write of `authToken = t` and then of `user = js`, `handleAuthCallback` with `token = t`
and `user = encodeURIComponent(js)` returns `true`; then `isAuthenticated()` is `true`,
`getToken()` is `t` and `getCurrentUser()` is `u`. The facts used of the built-ins:
`decodeURIComponent` undoes `encodeURIComponent` on `js`, `JSON.parse("")` throws and
`decodeURIComponent("")` is `""`. -/
theorem handleAuthCallback_establishes_session (P : Platform) (urlParams : URLSearchParams)
    (w : World) (t js : String) (u : JSValue)
    (ht : urlParams.get "token" = some t) (htne : t ≠ "")
    (hx : urlParams.get "user" = some (P.encodeURIComponent js))
    (hs : P.jsonStringify u = some js) (hp : P.jsonParse js = some u)
    (hd : P.decodeURIComponent (P.encodeURIComponent js) = some js)
    (hpe : P.jsonParse "" = none) (hde : P.decodeURIComponent "" = some "")
    (hf1 : P.storageAccepts (w.storage.setItem "authToken" t) = true)
    (hf2 : P.storageAccepts ((w.storage.setItem "authToken" t).setItem "user" js) = true) :
    ∃ w1, authService.handleAuthCallback P urlParams w = (.ok true, w1) ∧
      authService.isAuthenticated w1 = (.ok true, w1) ∧
      authService.getToken w1 = (.ok (some t), w1) ∧
      authService.getCurrentUser P w1 = (.ok u, w1) := by
  have hjs : js ≠ "" := by
    intro h
    rw [h, hpe] at hp
    cases hp
  have hxne : P.encodeURIComponent js ≠ "" := by
    intro h
    rw [h, hde] at hd
    exact hjs (Option.some.inj hd).symm
  have hstr : P.stringify u = js := by simp [Platform.stringify, hs]
  have hkeys : "user" ≠ "authToken" := by decide
  refine ⟨_, service_handleAuthCallback_ok P urlParams w t _ js u ht hx htne hxne hd hp hf1
    (by rw [hstr]; exact hf2), ?_, ?_, ?_⟩
  · simp [authService.isAuthenticated, JS.getItem, JS.seq, JS.ret, bind, pure, hstr,
      Storage.getItem_setItem_same, Storage.getItem_setItem_other _ _ _ _ hkeys, truthyStr,
      htne, hjs]
  · simp [authService.getToken, JS.getItem, Storage.getItem_setItem_same,
      Storage.getItem_setItem_other _ _ _ _ hkeys]
  · simp [authService.getCurrentUser, JS.tryCatch, JS.getItem, JS.seq, JS.ret, JS.lift, bind,
      pure, hstr, Storage.getItem_setItem_same, truthyStr, hjs, strArg, Platform.parse, hp]

/-- C2, amended, at `token=abc`, `user` the encoding of `{"name":"Ann"}`, on the reference
platform and over a stored session of another user. -/
theorem handleAuthCallback_establishes_session_witness :
    ∃ w1, authService.handleAuthCallback refPlatform annParams sessionWorld = (.ok true, w1) ∧
      authService.isAuthenticated w1 = (.ok true, w1) ∧
      authService.getToken w1 = (.ok (some "abc"), w1) ∧
      authService.getCurrentUser refPlatform w1 = (.ok annProfile, w1) :=
  handleAuthCallback_establishes_session refPlatform annParams sessionWorld "abc"
    "\x7b\"name\":\"Ann\"\x7d" annProfile (by decide) (by decide) (by decide) (by decide)
    (by decide) (by decide) (by decide) (by decide) (by decide) (by decide)

end AuthApp

namespace AuthApp

/-- The service function when the `user` parameter does not decode to JSON. -/
theorem service_handleAuthCallback_bad_user (P : Platform) (urlParams : URLSearchParams)
    (w : World) (x : String) (hx : urlParams.get "user" = some x)
    (hbad : P.decodeURIComponent x = none ∨
      ∃ d, P.decodeURIComponent x = some d ∧ P.jsonParse d = none) :
    authService.handleAuthCallback P urlParams w = (.ok false, w) := by
  unfold authService.handleAuthCallback
  simp only [hx]
  split_ifs with hc
  · rcases hbad with hd | ⟨d, hd, hp⟩
    · simp [JS.tryCatch, JS.seq, JS.ret, JS.lift, bind, pure, strArg, Platform.decode, hd,
        Except.bind]
    · simp [JS.tryCatch, JS.seq, JS.ret, JS.lift, bind, pure, strArg, Platform.decode,
        Platform.parse, hd, hp, Except.bind]
  · rfl

/-- The service function when the token or the user is absent or empty. -/
theorem service_handleAuthCallback_missing (P : Platform) (urlParams : URLSearchParams)
    (w : World)
    (h : (truthyStr (urlParams.get "token") && truthyStr (urlParams.get "user")) = false) :
    authService.handleAuthCallback P urlParams w = (.ok false, w) := by
  simp [authService.handleAuthCallback, h, JS.ret, pure]

/-- The page-level handler, without `error`, when the token or the user is absent or empty. -/
theorem page_handleAuthCallback_missing (P : Platform) (urlParams : URLSearchParams)
    (w : World) (he : truthyStr (urlParams.get "error") = false)
    (h : (truthyStr (urlParams.get "token") && truthyStr (urlParams.get "user")) = false) :
    AuthCallback.handleAuthCallback P urlParams w =
      (.ok (), { w with
        status := "error"
        message := "Erreur lors de la connexion: Token ou données utilisateur manquants"
        timers := w.timers ++ [(3000, "/?error=auth_failed")] }) := by
  simp [AuthCallback.handleAuthCallback, he, h, JS.tryCatch, JS.seq, JS.ret, JS.raise,
    JS.setStatus, JS.setMessage, JS.navigateAfter, bind, pure, JSError.message]

/-- The page-level handler, without `error`, when both parameters are given and the user
does not decode to JSON. -/
theorem page_handleAuthCallback_bad_user (P : Platform) (urlParams : URLSearchParams)
    (w : World) (t x : String) (he : truthyStr (urlParams.get "error") = false)
    (ht : urlParams.get "token" = some t) (htne : t ≠ "")
    (hx : urlParams.get "user" = some x) (hxne : x ≠ "")
    (hbad : P.decodeURIComponent x = none ∨
      ∃ d, P.decodeURIComponent x = some d ∧ P.jsonParse d = none) :
    AuthCallback.handleAuthCallback P urlParams w =
      (.ok (), { w with
        status := "error"
        message := "Erreur lors de la connexion: Données utilisateur invalides"
        timers := w.timers ++ [(3000, "/?error=auth_failed")] }) := by
  have htT : truthyStr (some t) = true := (truthyStr_some t).2 htne
  have hxT : truthyStr (some x) = true := (truthyStr_some x).2 hxne
  rcases hbad with hd | ⟨d, hd, hp⟩
  · simp [AuthCallback.handleAuthCallback, he, ht, hx, htT, hxT, JS.tryCatch,
      JS.seq, JS.ret, JS.raise, JS.lift, JS.setStatus, JS.setMessage, JS.navigateAfter, bind,
      pure, JSError.message, strArg, Platform.decode, hd, Except.bind]
  · simp [AuthCallback.handleAuthCallback, he, ht, hx, htT, hxT, JS.tryCatch,
      JS.seq, JS.ret, JS.raise, JS.lift, JS.setStatus, JS.setMessage, JS.navigateAfter, bind,
      pure, JSError.message, strArg, Platform.decode, Platform.parse, hd, hp, Except.bind]

/-- C3: with a non-empty token and a `user` parameter that `decodeURIComponent` rejects or
whose decoded text `JSON.parse` rejects, `authService.handleAuthCallback` returns `false` and
the state is the one before the call, `authToken` included; the handler of the callback page
ends in the status `error` with `localStorage` as before the call. -/
theorem handleAuthCallback_malformed_user_keeps_storage (P : Platform)
    (urlParams : URLSearchParams) (w : World) (t x : String)
    (ht : urlParams.get "token" = some t) (htne : t ≠ "")
    (hx : urlParams.get "user" = some x)
    (hbad : P.decodeURIComponent x = none ∨
      ∃ d, P.decodeURIComponent x = some d ∧ P.jsonParse d = none) :
    authService.handleAuthCallback P urlParams w = (.ok false, w) ∧
    ∃ w1, AuthCallback.handleAuthCallback P urlParams w = (.ok (), w1) ∧
      w1.storage = w.storage ∧ w1.status = "error" := by
  refine ⟨service_handleAuthCallback_bad_user P urlParams w x hx hbad, ?_⟩
  by_cases he : truthyStr (urlParams.get "error") = true
  · obtain ⟨e, hee, hene⟩ := (truthyStr_eq_true _).1 he
    exact ⟨_, page_handleAuthCallback_error_param P urlParams w e hee hene, rfl, rfl⟩
  · have he' : truthyStr (urlParams.get "error") = false := by simpa using he
    by_cases hxne : x = ""
    · refine ⟨_, page_handleAuthCallback_missing P urlParams w he' ?_, rfl, rfl⟩
      simp [hx, hxne, truthyStr]
    · exact ⟨_, page_handleAuthCallback_bad_user P urlParams w t x he' ht htne hx hxne
        hbad, rfl, rfl⟩

/-- C3 at `token=abc`, `user=%` on the reference platform, over a stored session. -/
theorem handleAuthCallback_malformed_user_keeps_storage_witness :
    authService.handleAuthCallback refPlatform malformedParams sessionWorld
      = (.ok false, sessionWorld) ∧
    ∃ w1, AuthCallback.handleAuthCallback refPlatform malformedParams sessionWorld
        = (.ok (), w1) ∧
      w1.storage = sessionWorld.storage ∧ w1.status = "error" :=
  handleAuthCallback_malformed_user_keeps_storage refPlatform malformedParams sessionWorld
    "abc" "%" (by decide) (by decide) (by decide) (Or.inl (by decide))

/-- C4, the code at the failing inputs `?token=abc` (no `error`, no `user`: missing
credentials) and `?token=abc&user=%` (a user that is not URL-encoded text: invalid payload).
`authService.handleAuthCallback` gives the same outcome on both, `false` with the state
unchanged, so its missing-credentials outcome cannot be told from its invalid-payload
outcome; the handler of the callback page, on the same two inputs, ends with the two
different messages. -/
theorem handleAuthCallback_missing_same_as_invalid :
    tokenOnlyParams.get "error" = none ∧ tokenOnlyParams.get "token" = some "abc" ∧
    tokenOnlyParams.get "user" = none ∧
    malformedParams.get "error" = none ∧ malformedParams.get "token" = some "abc" ∧
    malformedParams.get "user" = some "%" ∧ refPlatform.decodeURIComponent "%" = none ∧
    authService.handleAuthCallback refPlatform tokenOnlyParams sessionWorld
      = (.ok false, sessionWorld) ∧
    authService.handleAuthCallback refPlatform malformedParams sessionWorld
      = (.ok false, sessionWorld) ∧
    AuthCallback.handleAuthCallback refPlatform tokenOnlyParams sessionWorld =
      (.ok (), { sessionWorld with
        status := "error"
        message := "Erreur lors de la connexion: Token ou données utilisateur manquants"
        timers := [(3000, "/?error=auth_failed")] }) ∧
    AuthCallback.handleAuthCallback refPlatform malformedParams sessionWorld =
      (.ok (), { sessionWorld with
        status := "error"
        message := "Erreur lors de la connexion: Données utilisateur invalides"
        timers := [(3000, "/?error=auth_failed")] }) := by
  decide

/-- Missing credentials in both handlers: without a non-empty `error` and with exactly one
of `token` and `user` non-empty, `authService.handleAuthCallback` returns `false` and leaves
the state unchanged; the handler of the callback page leaves `localStorage` unchanged and
ends in the status `error` with the message `Token ou données utilisateur manquants`, which
is not the message it ends with on any parameter set whose user does not decode to JSON. -/
theorem both_handlers_missing_credentials (P : Platform) (urlParams : URLSearchParams)
    (w : World) (he : truthyStr (urlParams.get "error") = false)
    (hone : (truthyStr (urlParams.get "token") = true ∧ truthyStr (urlParams.get "user") = false)
      ∨ (truthyStr (urlParams.get "token") = false ∧ truthyStr (urlParams.get "user") = true)) :
    authService.handleAuthCallback P urlParams w = (.ok false, w) ∧
    AuthCallback.handleAuthCallback P urlParams w =
      (.ok (), { w with
        status := "error"
        message := "Erreur lors de la connexion: Token ou données utilisateur manquants"
        timers := w.timers ++ [(3000, "/?error=auth_failed")] }) ∧
    ∀ (q : URLSearchParams) (w' : World) (t x : String),
      truthyStr (q.get "error") = false → q.get "token" = some t → t ≠ "" →
      q.get "user" = some x → x ≠ "" →
      (P.decodeURIComponent x = none ∨
        ∃ d, P.decodeURIComponent x = some d ∧ P.jsonParse d = none) →
      (AuthCallback.handleAuthCallback P q w').2.message ≠
        (AuthCallback.handleAuthCallback P urlParams w).2.message := by
  have h : (truthyStr (urlParams.get "token") && truthyStr (urlParams.get "user")) = false := by
    rcases hone with ⟨h1, h2⟩ | ⟨h1, h2⟩ <;> simp [h1, h2]
  refine ⟨service_handleAuthCallback_missing P urlParams w h,
    page_handleAuthCallback_missing P urlParams w he h, ?_⟩
  intro q w' t x hqe hqt htne hqx hxne hbad
  rw [page_handleAuthCallback_bad_user P q w' t x hqe hqt htne hqx hxne hbad,
    page_handleAuthCallback_missing P urlParams w he h]
  show ("Erreur lors de la connexion: Données utilisateur invalides" : String) ≠
    "Erreur lors de la connexion: Token ou données utilisateur manquants"
  decide

end AuthApp

namespace AuthApp

/-! ## Session queries -/

/-- C5: `isAuthenticated()` returns `true` exactly when the entries `authToken` and `user`
are both present and non-empty; with `authToken = "abc"` and no `user` it returns `false`;
the state is unchanged. -/
theorem isAuthenticated_iff_both_entries (w : World) :
    ∃ b, authService.isAuthenticated w = (.ok b, w) ∧
      (b = true ↔ ∃ t u, w.storage.getItem "authToken" = some t ∧ t ≠ "" ∧
        w.storage.getItem "user" = some u ∧ u ≠ "") ∧
      (w.storage.getItem "authToken" = some "abc" → w.storage.getItem "user" = none →
        b = false) := by
  refine ⟨truthyStr (w.storage.getItem "authToken") && truthyStr (w.storage.getItem "user"),
    rfl, ?_, ?_⟩
  · rw [Bool.and_eq_true, truthyStr_eq_true, truthyStr_eq_true]
    constructor
    · rintro ⟨⟨t, ht, htne⟩, u, hu, hune⟩
      exact ⟨t, u, ht, htne, hu, hune⟩
    · rintro ⟨t, u, ht, htne, hu, hune⟩
      exact ⟨⟨t, ht, htne⟩, u, hu, hune⟩
  · intro _ hu
    simp [hu, truthyStr]

/-- C6: from any state `logout()` completes; afterwards `authToken` and `user` are absent,
`isAuthenticated()` is `false`, `getCurrentUser()` is `null` and the navigation target is
`/`. -/
theorem logout_clears_session (P : Platform) (w : World) :
    ∃ w1, authService.logout w = (.ok (), w1) ∧
      w1.storage.getItem "authToken" = none ∧ w1.storage.getItem "user" = none ∧
      authService.isAuthenticated w1 = (.ok false, w1) ∧
      authService.getCurrentUser P w1 = (.ok JSValue.null, w1) ∧
      w1.href = "/" := by
  have hkeys : "user" ≠ "authToken" := by decide
  have h1 : ((w.storage.removeItem "authToken").removeItem "user").getItem "authToken"
      = none := by
    rw [Storage.getItem_removeItem_other _ _ _ hkeys, Storage.getItem_removeItem_same]
  have h2 : ((w.storage.removeItem "authToken").removeItem "user").getItem "user" = none :=
    Storage.getItem_removeItem_same _ _
  refine ⟨{ w with storage := (w.storage.removeItem "authToken").removeItem "user",
                   href := "/" }, rfl, h1, h2, ?_, ?_, rfl⟩
  · simp [authService.isAuthenticated, JS.getItem, JS.seq, JS.ret, bind, pure, h1, h2,
      truthyStr]
  · simp [authService.getCurrentUser, JS.tryCatch, JS.getItem, JS.seq, JS.ret, bind, pure, h2,
      truthyStr]

/-- Applying the service function again with the same parameters changes nothing, whatever
the parameters and whatever `localStorage` accepts. -/
theorem service_handleAuthCallback_twice (P : Platform) (urlParams : URLSearchParams)
    (w : World) :
    authService.handleAuthCallback P urlParams (authService.handleAuthCallback P urlParams w).2
      = authService.handleAuthCallback P urlParams w := by
  by_cases hc : (truthyStr (urlParams.get "token") && truthyStr (urlParams.get "user")) = true
  · rw [Bool.and_eq_true, truthyStr_eq_true, truthyStr_eq_true] at hc
    obtain ⟨⟨t, ht, htne⟩, x, hx, hxne⟩ := hc
    cases hd : P.decodeURIComponent x with
    | none =>
      rw [service_handleAuthCallback_bad_user P urlParams w x hx (Or.inl hd)]
      exact service_handleAuthCallback_bad_user P urlParams w x hx (Or.inl hd)
    | some d =>
      cases hp : P.jsonParse d with
      | none =>
        rw [service_handleAuthCallback_bad_user P urlParams w x hx (Or.inr ⟨d, hd, hp⟩)]
        exact service_handleAuthCallback_bad_user P urlParams w x hx (Or.inr ⟨d, hd, hp⟩)
      | some u =>
        have hkeys : "user" ≠ "authToken" := by decide
        have e0 : (w.storage.setItem "authToken" t).setItem "authToken" t
            = w.storage.setItem "authToken" t :=
          Storage.setItem_of_getItem _ _ _ (Storage.getItem_setItem_same _ _ _)
        have e1 : ((w.storage.setItem "authToken" t).setItem "user" (P.stringify u)).setItem
            "authToken" t = (w.storage.setItem "authToken" t).setItem "user" (P.stringify u) :=
          Storage.setItem_of_getItem _ _ _ (by
            rw [Storage.getItem_setItem_other _ _ _ _ hkeys, Storage.getItem_setItem_same])
        have e2 : ((w.storage.setItem "authToken" t).setItem "user" (P.stringify u)).setItem
            "user" (P.stringify u)
              = (w.storage.setItem "authToken" t).setItem "user" (P.stringify u) :=
          Storage.setItem_of_getItem _ _ _ (Storage.getItem_setItem_same _ _ _)
        rw [service_handleAuthCallback_valid P urlParams w t x d u ht hx htne hxne hd hp]
        by_cases h1 : P.storageAccepts (w.storage.setItem "authToken" t) = true
        · by_cases h2 : P.storageAccepts
              ((w.storage.setItem "authToken" t).setItem "user" (P.stringify u)) = true
          · simp only [h1, h2, if_true]
            rw [service_handleAuthCallback_valid P urlParams _ t x d u ht hx htne hxne hd hp]
            simp [e1, e2, h2]
          · simp only [h1, h2, if_true, if_false]
            rw [service_handleAuthCallback_valid P urlParams _ t x d u ht hx htne hxne hd hp]
            simp [e0, h1, h2]
        · simp only [h1, if_false]
          rw [service_handleAuthCallback_valid P urlParams _ t x d u ht hx htne hxne hd hp]
          simp [h1]
  · have hc' : (truthyStr (urlParams.get "token") && truthyStr (urlParams.get "user"))
        = false := by simpa using hc
    rw [service_handleAuthCallback_missing P urlParams w hc']
    exact service_handleAuthCallback_missing P urlParams w hc'

/-- C7: for a parameter set with a non-empty token and a non-empty user that decodes to
JSON, from any state and whatever `localStorage` accepts, applying `handleAuthCallback` a
second time gives the same result and the same state as applying it once; that result is
`true` exactly when `localStorage` accepts the two writes. -/
theorem handleAuthCallback_idempotent (P : Platform) (urlParams : URLSearchParams)
    (w : World) (t x d : String) (u : JSValue)
    (ht : urlParams.get "token" = some t) (htne : t ≠ "")
    (hx : urlParams.get "user" = some x) (hxne : x ≠ "")
    (hd : P.decodeURIComponent x = some d) (hp : P.jsonParse d = some u) :
    authService.handleAuthCallback P urlParams (authService.handleAuthCallback P urlParams w).2
      = authService.handleAuthCallback P urlParams w ∧
    ((authService.handleAuthCallback P urlParams w).1 = .ok true ↔
      (P.storageAccepts (w.storage.setItem "authToken" t) = true ∧
        P.storageAccepts
          ((w.storage.setItem "authToken" t).setItem "user" (P.stringify u)) = true)) := by
  refine ⟨service_handleAuthCallback_twice P urlParams w, ?_⟩
  rw [service_handleAuthCallback_valid P urlParams w t x d u ht hx htne hxne hd hp]
  by_cases h1 : P.storageAccepts (w.storage.setItem "authToken" t) = true
  · by_cases h2 : P.storageAccepts
        ((w.storage.setItem "authToken" t).setItem "user" (P.stringify u)) = true
    · simp [h1, h2]
    · simp [h1, h2]
  · simp [h1]

/-- C7 at the sign-in `annParams` on the reference platform, over a stored session: the
second call gives the outcome of the first, which is a success. -/
theorem handleAuthCallback_idempotent_witness :
    authService.handleAuthCallback refPlatform annParams
        (authService.handleAuthCallback refPlatform annParams sessionWorld).2
      = authService.handleAuthCallback refPlatform annParams sessionWorld ∧
    ((authService.handleAuthCallback refPlatform annParams sessionWorld).1 = .ok true ↔
      (refPlatform.storageAccepts (sessionWorld.storage.setItem "authToken" "abc") = true ∧
        refPlatform.storageAccepts
          ((sessionWorld.storage.setItem "authToken" "abc").setItem "user"
            (refPlatform.stringify annProfile)) = true)) :=
  handleAuthCallback_idempotent refPlatform annParams sessionWorld "abc"
    "%7B%22name%22%3A%22Ann%22%7D" "\x7b\"name\":\"Ann\"\x7d" annProfile
    (by decide) (by decide) (by decide) (by decide) (by decide) (by decide)

/-- Idempotence on a full `localStorage`: the sign-in `marieParams` over the stored session
fails after its first write, and a second call ends in the same state with the same result. -/
theorem handleAuthCallback_idempotent_full_storage :
    authService.handleAuthCallback fullPlatform marieParams sessionWorld =
      (.ok false, { sessionWorld with
        storage := [("authToken", "abc"), ("user", "\x7b\"name\":\"Bob\"\x7d")] }) ∧
    authService.handleAuthCallback fullPlatform marieParams
        (authService.handleAuthCallback fullPlatform marieParams sessionWorld).2
      = authService.handleAuthCallback fullPlatform marieParams sessionWorld := by
  decide

/-- C8: `getCurrentUser()` always returns, with the state unchanged: the value `JSON.parse`
gives for the entry `user` when the entry is present, non-empty and valid JSON, and `null`
when the entry is missing, empty or not valid JSON. -/
theorem getCurrentUser_never_raises (P : Platform) (w : World) :
    ∃ v, authService.getCurrentUser P w = (.ok v, w) ∧
      (∀ s j, w.storage.getItem "user" = some s → s ≠ "" → P.jsonParse s = some j → v = j) ∧
      (w.storage.getItem "user" = none → v = JSValue.null) ∧
      (w.storage.getItem "user" = some "" → v = JSValue.null) ∧
      (∀ s, w.storage.getItem "user" = some s → P.jsonParse s = none → v = JSValue.null) := by
  cases hu : w.storage.getItem "user" with
  | none =>
    refine ⟨JSValue.null, ?_, ?_, ?_, ?_, ?_⟩
    · simp [authService.getCurrentUser, JS.tryCatch, JS.getItem, JS.seq, JS.ret, bind, pure, hu,
        truthyStr]
    all_goals simp
  | some s =>
    by_cases hs : s = ""
    · refine ⟨JSValue.null, ?_, ?_, ?_, ?_, ?_⟩
      · simp [authService.getCurrentUser, JS.tryCatch, JS.getItem, JS.seq, JS.ret, bind, pure,
          hu, hs, truthyStr]
      · intro s' j h hne _
        cases h
        exact absurd hs hne
      all_goals simp [hs]
    · cases hp : P.jsonParse s with
      | none =>
        refine ⟨JSValue.null, ?_, ?_, ?_, ?_, ?_⟩
        · simp [authService.getCurrentUser, JS.tryCatch, JS.getItem, JS.seq, JS.ret, JS.lift,
            bind, pure, hu, hs, truthyStr, strArg, Platform.parse, hp]
        · intro s' j h _ hp'
          cases h
          rw [hp] at hp'
          cases hp'
        all_goals simp [hp]
      | some j =>
        refine ⟨j, ?_, ?_, ?_, ?_, ?_⟩
        · simp [authService.getCurrentUser, JS.tryCatch, JS.getItem, JS.seq, JS.ret, JS.lift,
            bind, pure, hu, hs, truthyStr, strArg, Platform.parse, hp]
        · intro s' j' hs' _ hp'
          cases hs'
          rw [hp] at hp'
          exact Option.some.inj hp'
        · simp
        · intro h
          exact absurd (Option.some.inj h) hs
        · intro s' hs' hp'
          cases hs'
          rw [hp] at hp'
          cases hp'

end AuthApp

namespace AuthApp

/-! ## Token validation -/

/-- The result of `validateToken` as a function of the reply. -/
theorem validateToken_eq (P : Platform) (fetch : Fetch) (token : String) (w : World) :
    authService.validateToken P fetch token w =
      (.ok (match fetch
          { url := P.apiBaseUrl ++ "/auth/validate", method := "POST",
            headers := [("Content-Type", "application/json")],
            body := Body.text (P.stringify (JSValue.obj [("token", JSValue.str token)])) } with
        | .error _ => JSValue.null
        | .ok r =>
          if r.ok = true then
            match P.jsonParse r.body with
            | some (JSValue.obj fields) =>
              if (JSValue.lookupField fields "valid").truthy = true then
                JSValue.lookupField fields "user"
              else JSValue.null
            | _ => JSValue.null
          else JSValue.null), w) := by
  cases hf : fetch
      { url := P.apiBaseUrl ++ "/auth/validate", method := "POST",
        headers := [("Content-Type", "application/json")],
        body := Body.text (P.stringify (JSValue.obj [("token", JSValue.str token)])) } with
  | error e =>
    simp [authService.validateToken, JS.tryCatch, JS.seq, JS.ret, JS.lift, bind, pure, hf]
  | ok r =>
    by_cases hok : r.ok = true
    · cases hp : P.jsonParse r.body with
      | none =>
        simp [authService.validateToken, JS.tryCatch, JS.seq, JS.ret, JS.lift, JS.raise, bind,
          pure, hf, hok, Response.json, Platform.parse, hp]
      | some data =>
        cases data with
        | obj fields =>
          by_cases hv : (JSValue.lookupField fields "valid").truthy = true
          · simp [authService.validateToken, JS.tryCatch, JS.seq, JS.ret, JS.lift, JS.raise,
              bind, pure, hf, hok, Response.json, Platform.parse, hp, JSValue.get, hv]
          · simp [authService.validateToken, JS.tryCatch, JS.seq, JS.ret, JS.lift, JS.raise,
              bind, pure, hf, hok, Response.json, Platform.parse, hp, JSValue.get, hv]
        | undefined | null | bool _ | num _ | str _ | arr _ =>
          simp [authService.validateToken, JS.tryCatch, JS.seq, JS.ret, JS.lift, JS.raise,
            bind, pure, hf, hok, Response.json, Platform.parse, hp, JSValue.get,
            JSValue.truthy]
    · simp [authService.validateToken, JS.tryCatch, JS.seq, JS.ret, JS.lift, JS.raise, bind,
        pure, hf, hok]

/-- C9: `validateToken(token)` sends one `POST` to `/auth/validate` and always returns, with
the state unchanged and a result that does not depend on the state: the member `user` of
the body when the reply has a 2xx status and a JSON object body with a truthy `valid`, and
`null` when `fetch` rejects, when the status is not 2xx, when the body is not JSON, when
`valid` is falsy and when the body is not an object. -/
theorem validateToken_never_raises (P : Platform) (fetch : Fetch) (token : String)
    (w : World) :
    ∃ v, authService.validateToken P fetch token w = (.ok v, w) ∧
      (∀ w', (authService.validateToken P fetch token w').1 = .ok v) ∧
      (∀ e, fetch
          { url := P.apiBaseUrl ++ "/auth/validate", method := "POST",
            headers := [("Content-Type", "application/json")],
            body := Body.text (P.stringify (JSValue.obj [("token", JSValue.str token)])) }
          = .error e → v = JSValue.null) ∧
      (∀ r, fetch
          { url := P.apiBaseUrl ++ "/auth/validate", method := "POST",
            headers := [("Content-Type", "application/json")],
            body := Body.text (P.stringify (JSValue.obj [("token", JSValue.str token)])) }
          = .ok r →
        (r.ok = false → v = JSValue.null) ∧
        (r.ok = true → P.jsonParse r.body = none → v = JSValue.null) ∧
        (∀ fields, r.ok = true → P.jsonParse r.body = some (JSValue.obj fields) →
          ((JSValue.lookupField fields "valid").truthy = true →
            v = JSValue.lookupField fields "user") ∧
          ((JSValue.lookupField fields "valid").truthy = false → v = JSValue.null)) ∧
        (∀ data, r.ok = true → P.jsonParse r.body = some data →
          (∀ fields, data ≠ JSValue.obj fields) → v = JSValue.null)) := by
  refine ⟨_, validateToken_eq P fetch token w, fun w' => ?_, fun e he => ?_, fun r hr => ?_⟩
  · rw [validateToken_eq P fetch token w']
  · simp only [he]
  · simp only [hr]
    refine ⟨fun h => ?_, fun h hp => ?_, fun fields h hp => ⟨fun hv => ?_, fun hv => ?_⟩,
      fun data h hp hno => ?_⟩
    · simp [h]
    · simp [h, hp]
    · simp [h, hp, hv]
    · simp [h, hp, hv]
    · cases data with
      | obj fields => exact absurd rfl (hno fields)
      | undefined | null | bool _ | num _ | str _ | arr _ => simp [h, hp]

/-- The scenario of the specification: an expired token against a backend that answers
`{"valid": false}`, against one that cannot be reached, and a valid token against a backend
that confirms it. -/
theorem validateToken_scenarios :
    authService.validateToken refPlatform (replyWith "\x7b\"valid\": false\x7d") "expired-token"
      signedInWorld = (.ok JSValue.null, signedInWorld) ∧
    authService.validateToken refPlatform unreachable "expired-token" signedInWorld
      = (.ok JSValue.null, signedInWorld) ∧
    authService.validateToken refPlatform
        (replyWith "\x7b\"valid\": true, \"user\": \x7b\"name\":\"Ann\"\x7d\x7d") "abc"
        signedInWorld
      = (.ok annProfile, signedInWorld) := by
  decide

end AuthApp

namespace AuthApp

/-! ## Authorization headers -/

/-- The header of `jobService.js`: `Bearer` followed by the entry `authToken` when that
entry is present and non-empty. -/
theorem jobService_getAuthHeaders_token (w : World) (t : String)
    (ht : w.storage.getItem "authToken" = some t) (htne : t ≠ "") :
    jobService.getAuthHeaders w = (.ok [("Authorization", "Bearer " ++ t)], w) := by
  simp [jobService.getAuthHeaders, JS.getItem, JS.seq, JS.ret, JS.raise, bind, pure, ht,
    truthyStr, htne, strArg]

/-- The header of `jobService.js` when the entry `authToken` is absent: the not-authenticated
error, and no request. -/
theorem jobService_getJobs_no_token (P : Platform) (fetch : Fetch) (w : World)
    (ht : w.storage.getItem "authToken" = none) :
    jobService.getAuthHeaders w = (.error (JSError.error "Utilisateur non authentifié."), w) ∧
    jobService.getJobs P fetch w = (.error (JSError.error "Utilisateur non authentifié."), w) := by
  simp [jobService.getJobs, jobService.getAuthHeaders, JS.getItem, JS.seq, JS.ret, JS.raise,
    bind, pure, ht, truthyStr]

/-- C10, the code at the failing input. After the successful sign-in `?token=abc&user=...`
(the profile `{"name":"Ann"}`) the entry `authToken` is `abc` and `jobService.js` builds the
header `Bearer abc`; the `getAuthHeaders` of `resumeService.js` reads the member
`access_token` of the entry `user` instead of `authToken`, so it throws the not-authenticated
error and `getResumeData`, `uploadResume` and `deleteResume` fail before any request, whatever
the backend. Conversely, with `authToken` absent and a stored profile that has a member
`access_token`, `resumeService.js` does produce a header, `Bearer zzz`. -/
theorem resumeService_header_not_from_authToken :
    authService.handleAuthCallback refPlatform annParams freshWorld
      = (.ok true, signedInWorld) ∧
    signedInWorld.storage.getItem "authToken" = some "abc" ∧
    jobService.getAuthHeaders signedInWorld
      = (.ok [("Authorization", "Bearer abc")], signedInWorld) ∧
    resumeService.getAuthHeaders refPlatform signedInWorld
      = (.error (JSError.error "Utilisateur non authentifié."), signedInWorld) ∧
    (∀ fetch : Fetch, resumeService.getResumeData refPlatform fetch signedInWorld
      = (.error (JSError.error "Utilisateur non authentifié."), signedInWorld)) ∧
    (∀ (fetch : Fetch) (file : String),
      resumeService.uploadResume refPlatform fetch file signedInWorld
        = (.error (JSError.error "Utilisateur non authentifié."), signedInWorld)) ∧
    (∀ fetch : Fetch, resumeService.deleteResume refPlatform fetch signedInWorld
      = (.error (JSError.error "Utilisateur non authentifié."), signedInWorld)) ∧
    profileTokenWorld.storage.getItem "authToken" = none ∧
    resumeService.getAuthHeaders refPlatform profileTokenWorld
      = (.ok [("Authorization", "Bearer zzz")], profileTokenWorld) := by
  have h : resumeService.getAuthHeaders refPlatform signedInWorld
      = (.error (JSError.error "Utilisateur non authentifié."), signedInWorld) := by decide
  refine ⟨by decide, by decide, by decide, h, fun fetch => ?_, fun fetch file => ?_,
    fun fetch => ?_, by decide, by decide⟩
  · simp [resumeService.getResumeData, bind, JS.seq, h]
  · simp [resumeService.uploadResume, bind, JS.seq, h]
  · simp [resumeService.deleteResume, bind, JS.seq, h]

end AuthApp

namespace AuthApp

/-! ## The OAuth entry points -/

/-- C11: `loginWithGoogle`, `signupWithGoogle` and `authenticateWithGoogle` are the same
computation: for every API base each completes without a value, sets the navigation target
to the base followed by `/auth/oauth/google` and leaves `localStorage` (and the rest of the
state) as it was. -/
theorem googleEntryPoints_identical (P : Platform) (w : World) :
    authService.authenticateWithGoogle P w
      = (.ok (), { w with href := P.apiBaseUrl ++ "/auth/oauth/google" }) ∧
    authService.loginWithGoogle P = authService.authenticateWithGoogle P ∧
    authService.signupWithGoogle P = authService.authenticateWithGoogle P ∧
    (authService.loginWithGoogle P w).2.storage = w.storage ∧
    (authService.signupWithGoogle P w).2.storage = w.storage ∧
    (authService.authenticateWithGoogle P w).2.storage = w.storage :=
  ⟨rfl, rfl, rfl, rfl, rfl, rfl⟩

/-! ## Reading the analysed CV -/

/-- C12 as stated fails at two inputs. On the store a sign-in leaves (`authToken` and `user`
present, `isAuthenticated()` true) a backend that answers 404 is never asked: `getResumeData`
raises the not-authenticated error instead of returning `null`. And on a store whose request
is sent, a 204 answer with an empty body has an ok status but no JSON body: `getResumeData`
raises the `SyntaxError` of `response.json()` instead of returning a parsed body. -/
theorem getResumeData_claim_fails :
    authService.isAuthenticated signedInWorld = (.ok true, signedInWorld) ∧
    resumeService.getResumeData refPlatform (respondWith 404 "") signedInWorld
      = (.error (JSError.error "Utilisateur non authentifié."), signedInWorld) ∧
    authService.isAuthenticated resumeWorld = (.ok true, resumeWorld) ∧
    Response.ok { status := 204, body := "" } = true ∧
    resumeService.getResumeData refPlatform (respondWith 204 "") resumeWorld
      = (.error JSError.syntaxError, resumeWorld) := by
  decide

/-- C12, amended: when the authorization header has been built (`getAuthHeaders` yields
headers on the stored session) and the backend answers the `GET /resume/data` carrying them
with the response `r`, `getResumeData` returns `null` without raising if the status is 404,
raises the retrieval error for every other status outside 200..299, and for a status in
200..299 returns the parsed body when the body is JSON and raises the `SyntaxError` of
`response.json()` when it is not; the state is unchanged. -/
theorem getResumeData_by_status (P : Platform) (fetch : Fetch) (w : World)
    (headers : List (String × String)) (r : Response)
    (hauth : resumeService.getAuthHeaders P w = (.ok headers, w))
    (hr : fetch { url := P.apiBaseUrl ++ "/resume/data", method := "GET", headers := headers,
                  body := Body.empty } = .ok r) :
    (r.status = 404 → resumeService.getResumeData P fetch w = (.ok JSValue.null, w)) ∧
    (r.ok = false → r.status ≠ 404 →
      resumeService.getResumeData P fetch w =
        (.error (JSError.error "Erreur lors de la récupération des données du CV."), w)) ∧
    (r.ok = true → ∀ v, P.jsonParse r.body = some v →
      resumeService.getResumeData P fetch w = (.ok v, w)) ∧
    (r.ok = true → P.jsonParse r.body = none →
      resumeService.getResumeData P fetch w = (.error JSError.syntaxError, w)) := by
  refine ⟨fun h404 => ?_, fun hok hne => ?_, fun hok v hv => ?_, fun hok hv => ?_⟩
  · have hok : r.ok = false := by simp [Response.ok, h404]
    simp [resumeService.getResumeData, bind, pure, JS.seq, JS.ret, JS.lift, hauth, hr, hok,
      h404]
  · simp [resumeService.getResumeData, bind, pure, JS.seq, JS.ret, JS.lift, JS.raise, hauth,
      hr, hok, hne]
  · simp [resumeService.getResumeData, bind, pure, JS.seq, JS.ret, JS.lift, hauth, hr, hok,
      Response.json, Platform.parse, hv]
  · simp [resumeService.getResumeData, bind, pure, JS.seq, JS.ret, JS.lift, hauth, hr, hok,
      Response.json, Platform.parse, hv]

/-- C12, amended, on the reference platform, for a stored session whose request is sent and
a backend that answers 404. -/
theorem getResumeData_by_status_witness :
    ((404 : Nat) = 404 →
      resumeService.getResumeData refPlatform (respondWith 404 "") resumeWorld
        = (.ok JSValue.null, resumeWorld)) ∧
    (Response.ok { status := 404, body := "" } = false → (404 : Nat) ≠ 404 →
      resumeService.getResumeData refPlatform (respondWith 404 "") resumeWorld =
        (.error (JSError.error "Erreur lors de la récupération des données du CV."),
          resumeWorld)) ∧
    (Response.ok { status := 404, body := "" } = true → ∀ v, refPlatform.jsonParse "" = some v →
      resumeService.getResumeData refPlatform (respondWith 404 "") resumeWorld
        = (.ok v, resumeWorld)) ∧
    (Response.ok { status := 404, body := "" } = true → refPlatform.jsonParse "" = none →
      resumeService.getResumeData refPlatform (respondWith 404 "") resumeWorld
        = (.error JSError.syntaxError, resumeWorld)) :=
  getResumeData_by_status refPlatform (respondWith 404 "") resumeWorld
    [("Authorization", "Bearer zzz")] { status := 404, body := "" } (by decide) rfl

/-- The three outcomes of `getResumeData` on the reference platform: no CV (404), a backend
failure (500) and an analysed CV (200). -/
theorem getResumeData_scenarios :
    resumeService.getResumeData refPlatform (respondWith 404 "") resumeWorld
      = (.ok JSValue.null, resumeWorld) ∧
    resumeService.getResumeData refPlatform (respondWith 500 "") resumeWorld
      = (.error (JSError.error "Erreur lors de la récupération des données du CV."),
          resumeWorld) ∧
    resumeService.getResumeData refPlatform (respondWith 200 "\x7b\"name\":\"Ann\"\x7d")
        resumeWorld
      = (.ok annProfile, resumeWorld) := by
  decide

/-! ## The two callback handlers -/

/-- The page-level handler, without `error`, on a non-empty token and a non-empty user that
decodes to JSON: the outcome follows what `localStorage` accepts. -/
theorem page_handleAuthCallback_valid (P : Platform) (urlParams : URLSearchParams)
    (w : World) (t x d : String) (u : JSValue)
    (he : truthyStr (urlParams.get "error") = false)
    (ht : urlParams.get "token" = some t) (hx : urlParams.get "user" = some x)
    (htne : t ≠ "") (hxne : x ≠ "")
    (hd : P.decodeURIComponent x = some d) (hp : P.jsonParse d = some u) :
    AuthCallback.handleAuthCallback P urlParams w =
      if P.storageAccepts (w.storage.setItem "authToken" t) = true then
        if P.storageAccepts
            ((w.storage.setItem "authToken" t).setItem "user" (P.stringify u)) = true then
          (.ok (), { w with
            storage := (w.storage.setItem "authToken" t).setItem "user" (P.stringify u)
            status := "success"
            message := "Connexion réussie ! Redirection..."
            timers := w.timers ++ [(1500, "/home")] })
        else
          (.ok (), { w with
            storage := w.storage.setItem "authToken" t
            status := "error"
            message := "Erreur lors de la connexion: Données utilisateur invalides"
            timers := w.timers ++ [(3000, "/?error=auth_failed")] })
      else
        (.ok (), { w with
          status := "error"
          message := "Erreur lors de la connexion: Données utilisateur invalides"
          timers := w.timers ++ [(3000, "/?error=auth_failed")] }) := by
  have htT : truthyStr (some t) = true := (truthyStr_some t).2 htne
  have hxT : truthyStr (some x) = true := (truthyStr_some x).2 hxne
  by_cases h1 : P.storageAccepts (w.storage.setItem "authToken" t) = true
  · by_cases h2 : P.storageAccepts
        ((w.storage.setItem "authToken" t).setItem "user" (P.stringify u)) = true
    · simp [AuthCallback.handleAuthCallback, he, ht, hx, htT, hxT, JS.tryCatch, JS.seq, JS.ret,
        JS.raise, JS.lift, JS.setItem, JS.setStatus, JS.setMessage, JS.navigateAfter, bind,
        pure, strArg, Platform.decode, Platform.parse, hd, hp, Except.bind, h1, h2]
    · simp [AuthCallback.handleAuthCallback, he, ht, hx, htT, hxT, JS.tryCatch, JS.seq, JS.ret,
        JS.raise, JS.lift, JS.setItem, JS.setStatus, JS.setMessage, JS.navigateAfter, bind,
        pure, strArg, Platform.decode, Platform.parse, hd, hp, Except.bind, h1, h2,
        JSError.message]
  · simp [AuthCallback.handleAuthCallback, he, ht, hx, htT, hxT, JS.tryCatch, JS.seq, JS.ret,
      JS.raise, JS.lift, JS.setItem, JS.setStatus, JS.setMessage, JS.navigateAfter, bind,
      pure, strArg, Platform.decode, Platform.parse, hd, hp, Except.bind, h1,
      JSError.message]

/-- C13: on a parameter set without a non-empty `error`, from any state, the handler of the
callback page and `authService.handleAuthCallback` leave the same `localStorage`, the page
ends in the status `success` exactly when the service function returns `true`, and every
entry other than `authToken` and `user` is as before the call in both. -/
theorem page_and_service_handlers_agree (P : Platform) (urlParams : URLSearchParams)
    (w : World) (he : truthyStr (urlParams.get "error") = false) :
    (AuthCallback.handleAuthCallback P urlParams w).2.storage
      = (authService.handleAuthCallback P urlParams w).2.storage ∧
    ((AuthCallback.handleAuthCallback P urlParams w).2.status = "success" ↔
      (authService.handleAuthCallback P urlParams w).1 = .ok true) ∧
    ∀ k, k ≠ "authToken" → k ≠ "user" →
      (AuthCallback.handleAuthCallback P urlParams w).2.storage.getItem k
        = w.storage.getItem k ∧
      (authService.handleAuthCallback P urlParams w).2.storage.getItem k
        = w.storage.getItem k := by
  have hne1 : ¬ ("error" : String) = "success" := by decide
  have hne2 : ¬ (Except.ok false : Except JSError Bool) = Except.ok true := by decide
  by_cases hc : (truthyStr (urlParams.get "token") && truthyStr (urlParams.get "user")) = true
  · rw [Bool.and_eq_true, truthyStr_eq_true, truthyStr_eq_true] at hc
    obtain ⟨⟨t, ht, htne⟩, x, hx, hxne⟩ := hc
    have hbadCase : ∀ _hbad : (P.decodeURIComponent x = none ∨
        ∃ d, P.decodeURIComponent x = some d ∧ P.jsonParse d = none),
        (AuthCallback.handleAuthCallback P urlParams w).2.storage
          = (authService.handleAuthCallback P urlParams w).2.storage ∧
        ((AuthCallback.handleAuthCallback P urlParams w).2.status = "success" ↔
          (authService.handleAuthCallback P urlParams w).1 = .ok true) ∧
        ∀ k, k ≠ "authToken" → k ≠ "user" →
          (AuthCallback.handleAuthCallback P urlParams w).2.storage.getItem k
            = w.storage.getItem k ∧
          (authService.handleAuthCallback P urlParams w).2.storage.getItem k
            = w.storage.getItem k := by
      intro hbad
      rw [page_handleAuthCallback_bad_user P urlParams w t x he ht htne hx hxne hbad,
        service_handleAuthCallback_bad_user P urlParams w x hx hbad]
      exact ⟨rfl, ⟨fun h => absurd h hne1, fun h => absurd h hne2⟩, fun k _ _ => ⟨rfl, rfl⟩⟩
    cases hd : P.decodeURIComponent x with
    | none => exact hbadCase (Or.inl hd)
    | some d =>
      cases hp : P.jsonParse d with
      | none => exact hbadCase (Or.inr ⟨d, hd, hp⟩)
      | some u =>
        rw [page_handleAuthCallback_valid P urlParams w t x d u he ht hx htne hxne hd hp,
          service_handleAuthCallback_valid P urlParams w t x d u ht hx htne hxne hd hp]
        by_cases h1 : P.storageAccepts (w.storage.setItem "authToken" t) = true
        · by_cases h2 : P.storageAccepts
              ((w.storage.setItem "authToken" t).setItem "user" (P.stringify u)) = true
          · rw [if_pos h1, if_pos h2, if_pos h1, if_pos h2]
            refine ⟨rfl, ⟨fun _ => rfl, fun _ => rfl⟩, fun k hk1 hk2 => ?_⟩
            have e : ((w.storage.setItem "authToken" t).setItem "user"
                (P.stringify u)).getItem k = w.storage.getItem k := by
              rw [Storage.getItem_setItem_other _ _ _ _ (Ne.symm hk2),
                Storage.getItem_setItem_other _ _ _ _ (Ne.symm hk1)]
            exact ⟨e, e⟩
          · rw [if_pos h1, if_neg h2, if_pos h1, if_neg h2]
            refine ⟨rfl, ⟨fun h => absurd h hne1, fun h => absurd h hne2⟩,
              fun k hk1 _ => ?_⟩
            have e : (w.storage.setItem "authToken" t).getItem k = w.storage.getItem k :=
              Storage.getItem_setItem_other _ _ _ _ (Ne.symm hk1)
            exact ⟨e, e⟩
        · rw [if_neg h1, if_neg h1]
          exact ⟨rfl, ⟨fun h => absurd h hne1, fun h => absurd h hne2⟩,
            fun k _ _ => ⟨rfl, rfl⟩⟩
  · have hc' : (truthyStr (urlParams.get "token") && truthyStr (urlParams.get "user"))
        = false := by simpa using hc
    rw [page_handleAuthCallback_missing P urlParams w he hc',
      service_handleAuthCallback_missing P urlParams w hc']
    exact ⟨rfl, ⟨fun h => absurd h hne1, fun h => absurd h hne2⟩, fun k _ _ => ⟨rfl, rfl⟩⟩

/-- C13 at the sign-in `annParams` on the reference platform, over a stored session. -/
theorem page_and_service_handlers_agree_witness :
    (AuthCallback.handleAuthCallback refPlatform annParams sessionWorld).2.storage
      = (authService.handleAuthCallback refPlatform annParams sessionWorld).2.storage ∧
    ((AuthCallback.handleAuthCallback refPlatform annParams sessionWorld).2.status = "success" ↔
      (authService.handleAuthCallback refPlatform annParams sessionWorld).1 = .ok true) ∧
    ∀ k, k ≠ "authToken" → k ≠ "user" →
      (AuthCallback.handleAuthCallback refPlatform annParams sessionWorld).2.storage.getItem k
        = sessionWorld.storage.getItem k ∧
      (authService.handleAuthCallback refPlatform annParams sessionWorld).2.storage.getItem k
        = sessionWorld.storage.getItem k :=
  page_and_service_handlers_agree refPlatform annParams sessionWorld (by decide)

end AuthApp
